import Mathlib

/-!
Verification of the galaxygst GST recorder against its specification.

The Python source (`src/galaxygst/gst.py`, `src/galaxygst/__main__.py`) is
shallowly embedded below.  Python floats are modelled as rationals: every
float operation the code performs on them is either a comparison, a clamp,
or a multiplication by a power of two, all of which are exact in IEEE-754
binary64, so the rational model is faithful for all in-range inputs.
Python `int(x)` truncation toward zero is modelled by `pytrunc`.
Python's arbitrary-precision two's-complement bitwise AND against a
non-negative mask is modelled by `pyAnd`.  `struct.pack` range failures are
modelled with `Except`.
-/

namespace GalaxyGst

/-- Python `int(x)`: truncation toward zero of a rational. -/
def pytrunc (q : ℚ) : ℤ :=
  Int.tdiv q.num q.den

/-- Python `x & f` for an arbitrary-precision integer `x` (two's complement)
and a non-negative mask `f`.  For `x = Int.negSucc m` the bits of `x` are the
complement of the bits of `m`, so `x & f = f ^^^ (f &&& m)`. -/
def pyAnd (n : ℤ) (f : ℕ) : ℕ :=
  match n with
  | Int.ofNat m => m &&& f
  | Int.negSucc m => f ^^^ (f &&& m)

/-- Truthiness of `flags & FLAG` in Python: nonzero means true. -/
def hasFlag (flags : ℤ) (f : ℕ) : Bool :=
  pyAnd flags f != 0

-- ---------------------------------------------------------------------------
-- gst.py: module-level constants

def GHOST_TYPE_GHOST_ATTACK_GHOST : ℤ := 0
def GHOST_TYPE_PICHAN_RACER : ℤ := 1
def GHOST_TYPE_GHOST_PLAYER_MARIO : ℤ := 2
def GHOST_TYPE_GHOST_PLAYER_LUIGI : ℤ := 3

def OFFSET_UPDATE_FRAME : ℕ := 0x00
def OFFSET_RECORDER_MODE : ℕ := 0x04
def OFFSET_STAGE_NAME_PTR : ℕ := 0x08
def OFFSET_GST_DATA_STRUCT : ℕ := 0x14
def OFFSET_GST_DATA_STRUCT_ACTION_NAME_PTR : ℕ := OFFSET_GST_DATA_STRUCT + 0x30

def PACKET_FLAG_POSITION_INT : ℕ := 0x0001
def PACKET_FLAG_ROTATION_X : ℕ := 0x0002
def PACKET_FLAG_ROTATION_Y : ℕ := 0x0004
def PACKET_FLAG_ROTATION_Z : ℕ := 0x0008
def PACKET_FLAG_ACTION_NAME : ℕ := 0x0010
def PACKET_FLAG_BCK_FRAME : ℕ := 0x0020
def PACKET_FLAG_TRACK_WEIGHT_0 : ℕ := 0x0040
def PACKET_FLAG_TRACK_WEIGHT_1 : ℕ := 0x0080
def PACKET_FLAG_TRACK_WEIGHT_2 : ℕ := 0x0100
def PACKET_FLAG_TRACK_WEIGHT_3 : ℕ := 0x0200
def PACKET_FLAG_SCALE : ℕ := 0x0400
def PACKET_FLAG_VELOCITY : ℕ := 0x0800
def PACKET_FLAG_BCK_RATE : ℕ := 0x1000
def PACKET_FLAG_ACTION_HASH : ℕ := 0x2000
def PACKET_FLAG_POSITION_FLOAT : ℕ := 0x4000

-- ---------------------------------------------------------------------------
-- gst.py: vectors and the quantization layer

/-- `Vec3f`: three float (rational-modelled) components. -/
structure Vec3f where
  x : ℚ
  y : ℚ
  z : ℚ
deriving DecidableEq

/-- `Vec3i`: three integer components. -/
structure Vec3i where
  x : ℤ
  y : ℤ
  z : ℤ
deriving DecidableEq

/-- `get_shift_ratio` from gst.py: `(256 << shift) * 0.00390625` for positive
shift, `(256 >> -shift) * 0.00390625` otherwise.  The float literal
`0.00390625` is exactly `1 / 256`. -/
def get_shift_ratio (shift : ℤ) : ℚ :=
  if shift > 0 then
    ((256 <<< shift.toNat : ℕ) : ℚ) * (1 / 256)
  else
    ((256 >>> (-shift).toNat : ℕ) : ℚ) * (1 / 256)

/-- `clamp` from gst.py. -/
def clamp (lo hi value : ℚ) : ℚ :=
  if value < lo then lo
  else if value > hi then hi
  else value

/-- The quantization pattern of every setter in gst.py:
`int(value * get_shift_ratio(shift))`. -/
def quantize (value : ℚ) (shift : ℤ) : ℤ :=
  pytrunc (value * get_shift_ratio shift)

-- ---------------------------------------------------------------------------
-- gst.py: RawGhostData state and its setters

/-- The state held by `RawGhostData`.  The Python action name string is
modelled as its list of character codepoints. -/
structure RawGhostData where
  ghost_data_type : ℤ
  position : Vec3i
  position_f : Vec3f
  rotation : Vec3i
  scale : Vec3i
  velocity : Vec3i
  action_name : List ℕ
  action_hash : ℤ
  bck_frame : ℤ
  track_weights : ℤ × ℤ × ℤ × ℤ
  bck_rate : ℤ
  packet_flags : ℤ
deriving DecidableEq

/-- `RawGhostData.__init__`: zero state with the `-1` packet-flags sentinel. -/
def init (ghost_data_type : ℤ) : RawGhostData :=
  { ghost_data_type := ghost_data_type
    position := ⟨0, 0, 0⟩
    position_f := ⟨0, 0, 0⟩
    rotation := ⟨0, 0, 0⟩
    scale := ⟨0, 0, 0⟩
    velocity := ⟨0, 0, 0⟩
    action_name := []
    action_hash := 0
    bck_frame := 0
    track_weights := (0, 0, 0, 0)
    bck_rate := 0
    packet_flags := -1 }

/-- `RawGhostData.set_position`: quantizes with shift -2 and retains the float
position. -/
def set_position (self : RawGhostData) (position : Vec3f) : RawGhostData :=
  let ratio := get_shift_ratio (-2)
  { self with
    position := ⟨pytrunc (position.x * ratio), pytrunc (position.y * ratio),
                 pytrunc (position.z * ratio)⟩
    position_f := position }

/-- `RawGhostData.set_rotation`: clamps each axis to [-180, 180] and quantizes
with shift 7. -/
def set_rotation (self : RawGhostData) (rotation : Vec3f) : RawGhostData :=
  let ratio := get_shift_ratio 7
  { self with
    rotation := ⟨pytrunc (clamp (-180) 180 rotation.x * ratio),
                 pytrunc (clamp (-180) 180 rotation.y * ratio),
                 pytrunc (clamp (-180) 180 rotation.z * ratio)⟩ }

/-- `RawGhostData.set_scale`: quantizes with shift 3. -/
def set_scale (self : RawGhostData) (scale : Vec3f) : RawGhostData :=
  let ratio := get_shift_ratio 3
  { self with
    scale := ⟨pytrunc (scale.x * ratio), pytrunc (scale.y * ratio),
              pytrunc (scale.z * ratio)⟩ }

/-- `RawGhostData.set_velocity`: quantizes with shift 0. -/
def set_velocity (self : RawGhostData) (velocity : Vec3f) : RawGhostData :=
  let ratio := get_shift_ratio 0
  { self with
    velocity := ⟨pytrunc (velocity.x * ratio), pytrunc (velocity.y * ratio),
                 pytrunc (velocity.z * ratio)⟩ }

/-- `RawGhostData.set_action_name`. -/
def set_action_name (self : RawGhostData) (action_name : List ℕ) : RawGhostData :=
  { self with action_name := action_name }

/-- `RawGhostData.set_action_hash`. -/
def set_action_hash (self : RawGhostData) (action_hash : ℤ) : RawGhostData :=
  { self with action_hash := action_hash }

/-- `RawGhostData.set_bck_frame`: quantizes with shift 2. -/
def set_bck_frame (self : RawGhostData) (bck_frame : ℚ) : RawGhostData :=
  let ratio := get_shift_ratio 2
  { self with bck_frame := pytrunc (bck_frame * ratio) }

/-- `RawGhostData.set_bck_rate`: quantizes with shift 3. -/
def set_bck_rate (self : RawGhostData) (bck_rate : ℚ) : RawGhostData :=
  let ratio := get_shift_ratio 3
  { self with bck_rate := pytrunc (bck_rate * ratio) }

/-- The per-weight conversion of `RawGhostData.set_track_weights`: a weight of
exactly 1.0 stores -128, every other weight is quantized with shift 7. -/
def quantizeWeight (w : ℚ) : ℤ :=
  if w = 1 then -128 else pytrunc (w * get_shift_ratio 7)

/-- `RawGhostData.set_track_weights`. -/
def set_track_weights (self : RawGhostData) (w : ℚ × ℚ × ℚ × ℚ) : RawGhostData :=
  { self with
    track_weights := (quantizeWeight w.1, quantizeWeight w.2.1,
                      quantizeWeight w.2.2.1, quantizeWeight w.2.2.2) }

-- ---------------------------------------------------------------------------
-- gst.py: RawGhostData.compare_and_update

/-- Accumulation of `packet_flags |= FLAG` statements: starting from `m`, OR
in each flag whose guard holds, in source order. -/
def accMask : ℕ → List (Bool × ℕ) → ℕ
  | m, [] => m
  | m, (c, f) :: rest => accMask (if c then m ||| f else m) rest

/-- The guards of the `if` chain in `RawGhostData.compare_and_update`, paired
with the flag each one ORs into `packet_flags`, in source order.  Velocity and
the float position are never compared (the source comments this). -/
def cmpGuards (self other : RawGhostData) : List (Bool × ℕ) :=
  [ (self.position != other.position, PACKET_FLAG_POSITION_INT),
    (self.scale != other.scale, PACKET_FLAG_SCALE),
    (self.rotation.x != other.rotation.x, PACKET_FLAG_ROTATION_X),
    (self.rotation.y != other.rotation.y, PACKET_FLAG_ROTATION_Y),
    (self.rotation.z != other.rotation.z, PACKET_FLAG_ROTATION_Z),
    ((self.action_name != other.action_name) &&
       decide (self.ghost_data_type ∈ [GHOST_TYPE_PICHAN_RACER]), PACKET_FLAG_ACTION_NAME),
    ((self.action_hash != other.action_hash) &&
       decide (self.ghost_data_type ∈ [GHOST_TYPE_GHOST_ATTACK_GHOST]), PACKET_FLAG_ACTION_HASH),
    (self.bck_frame != other.bck_frame, PACKET_FLAG_BCK_FRAME),
    (self.bck_rate != other.bck_rate, PACKET_FLAG_BCK_RATE),
    (self.track_weights.1 != other.track_weights.1, PACKET_FLAG_TRACK_WEIGHT_0),
    (self.track_weights.2.1 != other.track_weights.2.1, PACKET_FLAG_TRACK_WEIGHT_1),
    (self.track_weights.2.2.1 != other.track_weights.2.2.1, PACKET_FLAG_TRACK_WEIGHT_2),
    (self.track_weights.2.2.2 != other.track_weights.2.2.2, PACKET_FLAG_TRACK_WEIGHT_3) ]

/-- `RawGhostData.compare_and_update`: resets `packet_flags` to 0, then for
each compared field sets the field's flag and overwrites the retained value
exactly when the values differ.  Each `if` of the source touches a distinct
field, so the sequential mutation is rendered as independent per-field
updates plus the flag accumulation `accMask`. -/
def compare_and_update (self other : RawGhostData) : RawGhostData :=
  { ghost_data_type := self.ghost_data_type
    position := if self.position != other.position then other.position else self.position
    position_f := self.position_f
    rotation :=
      ⟨if self.rotation.x != other.rotation.x then other.rotation.x else self.rotation.x,
       if self.rotation.y != other.rotation.y then other.rotation.y else self.rotation.y,
       if self.rotation.z != other.rotation.z then other.rotation.z else self.rotation.z⟩
    scale := if self.scale != other.scale then other.scale else self.scale
    velocity := self.velocity
    action_name :=
      if (self.action_name != other.action_name) &&
          decide (self.ghost_data_type ∈ [GHOST_TYPE_PICHAN_RACER]) then
        other.action_name
      else self.action_name
    action_hash :=
      if (self.action_hash != other.action_hash) &&
          decide (self.ghost_data_type ∈ [GHOST_TYPE_GHOST_ATTACK_GHOST]) then
        other.action_hash
      else self.action_hash
    bck_frame := if self.bck_frame != other.bck_frame then other.bck_frame else self.bck_frame
    bck_rate := if self.bck_rate != other.bck_rate then other.bck_rate else self.bck_rate
    track_weights :=
      (if self.track_weights.1 != other.track_weights.1 then
         other.track_weights.1 else self.track_weights.1,
       if self.track_weights.2.1 != other.track_weights.2.1 then
         other.track_weights.2.1 else self.track_weights.2.1,
       if self.track_weights.2.2.1 != other.track_weights.2.2.1 then
         other.track_weights.2.2.1 else self.track_weights.2.2.1,
       if self.track_weights.2.2.2 != other.track_weights.2.2.2 then
         other.track_weights.2.2.2 else self.track_weights.2.2.2)
    packet_flags := ((accMask 0 (cmpGuards self other) : ℕ) : ℤ) }

-- ---------------------------------------------------------------------------
-- struct.pack encoders (external `struct` library, modelled at its contract)

/-- Whether an `Except` computation succeeded. -/
def isOkB {α : Type} : Except String α → Bool
  | Except.ok _ => true
  | Except.error _ => false

/-- The low byte of an integer, two's complement. -/
def byteOfInt (v : ℤ) : ℕ :=
  (v.emod 256).toNat

/-- `struct.pack("b", v)`: one signed byte; `struct.error` out of range. -/
def packS8 (v : ℤ) : Except String (List ℕ) :=
  if -128 ≤ v ∧ v ≤ 127 then Except.ok [byteOfInt v]
  else Except.error "byte format requires -128 <= number <= 127"

/-- `struct.pack(">h", v)`: one big-endian signed 16-bit value. -/
def packS16be (v : ℤ) : Except String (List ℕ) :=
  if -32768 ≤ v ∧ v ≤ 32767 then
    Except.ok [((v.emod 65536).toNat) / 256, ((v.emod 65536).toNat) % 256]
  else Except.error "short format requires -32768 <= number <= 32767"

/-- Big-endian bytes of an unsigned 32-bit value. -/
def be32 (n : ℕ) : List ℕ :=
  [(n >>> 24) % 256, (n >>> 16) % 256, (n >>> 8) % 256, n % 256]

/-- `struct.pack(">I", v)`: one big-endian unsigned 32-bit value. -/
def packU32be (v : ℤ) : Except String (List ℕ) :=
  if 0 ≤ v ∧ v < 4294967296 then Except.ok (be32 v.toNat)
  else Except.error "argument out of range for I format"

/-- `(name + chr 0).encode("ascii")`: fails on any codepoint above 127. -/
def packAsciiZ (s : List ℕ) : Except String (List ℕ) :=
  if s.all (fun c => decide (c < 128)) then Except.ok (s ++ [0])
  else Except.error "ascii codec cannot encode character"

/-- Exponent of the leading binary digit of a positive rational:
the unique `k` with `2 ^ k <= m < 2 ^ (k + 1)`. -/
def ilog2q (m : ℚ) : ℤ :=
  let k : ℤ := (m.num.natAbs.log2 : ℤ) - (m.den.log2 : ℤ)
  if m < 2 ^ (k - 1) then k - 2
  else if m < 2 ^ k then k - 1
  else if (2 : ℚ) ^ (k + 1) ≤ m then k + 1
  else k

/-- Round a rational to the nearest integer, ties to even. -/
def rne (q : ℚ) : ℤ :=
  let f := ⌊q⌋
  let r := q - (f : ℚ)
  if r < 1 / 2 then f
  else if 1 / 2 < r then f + 1
  else if f % 2 = 0 then f else f + 1

/-- IEEE-754 binary32 bit pattern of a rational (round to nearest, ties to
even); `none` when the rounded magnitude overflows to infinity, in which case
`struct.pack` raises `OverflowError`. -/
def f32bits (q : ℚ) : Option ℕ :=
  if q = 0 then some 0
  else
    let s : ℕ := if q < 0 then 2 ^ 31 else 0
    let m := |q|
    let e : ℤ := max (ilog2q m) (-126)
    if e > 127 then none
    else
      let sg := rne (m * 2 ^ (23 - e))
      if sg < 2 ^ 23 then some (s + sg.toNat)
      else if sg < 2 ^ 24 then
        some (s + (((e + 127).toNat) <<< 23) + (sg.toNat - 2 ^ 23))
      else if e + 1 > 127 then none
      else some (s + (((e + 128).toNat) <<< 23))

/-- `struct.pack(">f", v)` on an exactly-represented value. -/
def packF32be (q : ℚ) : Except String (List ℕ) :=
  match f32bits q with
  | some bits => Except.ok (be32 bits)
  | none => Except.error "float too large to pack with f format"

-- ---------------------------------------------------------------------------
-- gst.py: RawGhostData.pack, one chunk per `if` of the source, in wire order

/-- Three components encoded in a row (one `struct.pack` of three values). -/
def packTriple (enc : ℤ → Except String (List ℕ)) (x y z : ℤ) :
    Except String (List ℕ) := do
  let a ← enc x
  let b ← enc y
  let c ← enc z
  pure (a ++ b ++ c)

/-- Three float components encoded in a row (`struct.pack(">3f", ...)`). -/
def packTripleF (x y z : ℚ) : Except String (List ℕ) := do
  let a ← packF32be x
  let b ← packF32be y
  let c ← packF32be z
  pure (a ++ b ++ c)

/-- Position chunk: float position takes precedence over int position. -/
def chunkPosition (st : RawGhostData) : Except String (List ℕ) :=
  if hasFlag st.packet_flags PACKET_FLAG_POSITION_FLOAT then
    packTripleF st.position_f.x st.position_f.y st.position_f.z
  else if hasFlag st.packet_flags PACKET_FLAG_POSITION_INT then
    packTriple packS16be st.position.x st.position.y st.position.z
  else pure []

def chunkVelocity (st : RawGhostData) : Except String (List ℕ) :=
  if hasFlag st.packet_flags PACKET_FLAG_VELOCITY then
    packTriple packS8 st.velocity.x st.velocity.y st.velocity.z
  else pure []

def chunkScale (st : RawGhostData) : Except String (List ℕ) :=
  if hasFlag st.packet_flags PACKET_FLAG_SCALE then
    packTriple packS8 st.scale.x st.scale.y st.scale.z
  else pure []

def chunkRotationX (st : RawGhostData) : Except String (List ℕ) :=
  if hasFlag st.packet_flags PACKET_FLAG_ROTATION_X then packS8 st.rotation.x
  else pure []

def chunkRotationY (st : RawGhostData) : Except String (List ℕ) :=
  if hasFlag st.packet_flags PACKET_FLAG_ROTATION_Y then packS8 st.rotation.y
  else pure []

def chunkRotationZ (st : RawGhostData) : Except String (List ℕ) :=
  if hasFlag st.packet_flags PACKET_FLAG_ROTATION_Z then packS8 st.rotation.z
  else pure []

def chunkActionName (st : RawGhostData) : Except String (List ℕ) :=
  if hasFlag st.packet_flags PACKET_FLAG_ACTION_NAME then packAsciiZ st.action_name
  else pure []

def chunkActionHash (st : RawGhostData) : Except String (List ℕ) :=
  if hasFlag st.packet_flags PACKET_FLAG_ACTION_HASH then packU32be st.action_hash
  else pure []

def chunkBckFrame (st : RawGhostData) : Except String (List ℕ) :=
  if hasFlag st.packet_flags PACKET_FLAG_BCK_FRAME then packS8 st.bck_frame
  else pure []

def chunkBckRate (st : RawGhostData) : Except String (List ℕ) :=
  if hasFlag st.packet_flags PACKET_FLAG_BCK_RATE then packS8 st.bck_rate
  else pure []

def chunkWeight0 (st : RawGhostData) : Except String (List ℕ) :=
  if hasFlag st.packet_flags PACKET_FLAG_TRACK_WEIGHT_0 then packS8 st.track_weights.1
  else pure []

def chunkWeight1 (st : RawGhostData) : Except String (List ℕ) :=
  if hasFlag st.packet_flags PACKET_FLAG_TRACK_WEIGHT_1 then packS8 st.track_weights.2.1
  else pure []

def chunkWeight2 (st : RawGhostData) : Except String (List ℕ) :=
  if hasFlag st.packet_flags PACKET_FLAG_TRACK_WEIGHT_2 then packS8 st.track_weights.2.2.1
  else pure []

def chunkWeight3 (st : RawGhostData) : Except String (List ℕ) :=
  if hasFlag st.packet_flags PACKET_FLAG_TRACK_WEIGHT_3 then packS8 st.track_weights.2.2.2
  else pure []

/-- The chunks of `RawGhostData.pack` in the wire order of the source. -/
def packChunks (st : RawGhostData) : List (Except String (List ℕ)) :=
  [chunkPosition st, chunkVelocity st, chunkScale st,
   chunkRotationX st, chunkRotationY st, chunkRotationZ st,
   chunkActionName st, chunkActionHash st,
   chunkBckFrame st, chunkBckRate st,
   chunkWeight0 st, chunkWeight1 st, chunkWeight2 st, chunkWeight3 st]

/-- Sequential writes to the output buffer; the first failure aborts. -/
def seqChunks : List (Except String (List ℕ)) → Except String (List ℕ)
  | [] => pure []
  | c :: cs => do
    let x ← c
    let xs ← seqChunks cs
    pure (x ++ xs)

/-- `RawGhostData.pack`: the written bytes plus the current bitmask. -/
def pack (st : RawGhostData) : Except String (List ℕ × ℤ) :=
  (seqChunks (packChunks st)).map (fun l => (l, st.packet_flags))

-- ---------------------------------------------------------------------------
-- gst.py: remote-memory reads guarded by validate_ptr
-- The dolphin_memory_engine library is external; it is abstracted as a total
-- memory capability.  What is embedded faithfully is the repository's own
-- null-pointer guard (`validate_ptr`) and the two-step pointer chains.

/-- The opaque remote-memory capability: word reads, float reads, and the
NUL-terminated string found at an address (as codepoints). -/
structure RemoteMem where
  word : ℕ → ℕ
  flt : ℕ → ℚ
  cstr : ℕ → List ℕ

/-- `dolphin_read_u32`: `validate_ptr` guard, then a masked word read. -/
def dolphin_read_u32 (mem : RemoteMem) (ptr : ℕ) : Except String ℕ :=
  if ptr = 0 then Except.error "u32* is NULL!"
  else Except.ok (mem.word ptr % 4294967296)

/-- `dolphin_read_f32`. -/
def dolphin_read_f32 (mem : RemoteMem) (ptr : ℕ) : Except String ℚ :=
  if ptr = 0 then Except.error "f32* is NULL!"
  else Except.ok (mem.flt ptr)

/-- `dolphin_read_cstring`. -/
def dolphin_read_cstring (mem : RemoteMem) (ptr : ℕ) : Except String (List ℕ) :=
  if ptr = 0 then Except.error "char* is NULL!"
  else Except.ok (mem.cstr ptr)

/-- `dolphin_read_stage_name`: reads the stage-name pointer stored at offset
8 of GstRecorderInfo, then the string behind it. -/
def dolphin_read_stage_name (mem : RemoteMem) (ptr : ℕ) : Except String (List ℕ) :=
  if ptr = 0 then Except.error "GstRecorderInfo* is NULL!"
  else do
    let stage_name_ptr ← dolphin_read_u32 mem (ptr + OFFSET_STAGE_NAME_PTR)
    dolphin_read_cstring mem stage_name_ptr

/-- `dolphin_read_ghost_data_struct_action_name`: reads the action-name
pointer stored at offset 0x44 of GstRecorderInfo, then the string behind it. -/
def dolphin_read_action_name (mem : RemoteMem) (ptr : ℕ) : Except String (List ℕ) :=
  if ptr = 0 then Except.error "GstRecorderInfo* is NULL!"
  else do
    let action_name_ptr ← dolphin_read_u32 mem (ptr + OFFSET_GST_DATA_STRUCT_ACTION_NAME_PTR)
    dolphin_read_cstring mem action_name_ptr

-- ---------------------------------------------------------------------------
-- Capture loop frame-continuity rule

/-- The action taken for one observed frame counter. -/
inductive StepAction where
  | skip : StepAction
  | emit : StepAction
  | abortSync : StepAction
deriving DecidableEq

/-- Modelled from the spec: the per-frame frame-continuity rule of
`record_gst_from_dolphin`, whose body is an empty stub in the source.  With
`next_frame` the expected counter, an observed counter equal to
`next_frame - 1 (mod 2 ^ 32)` is a skip, one equal to `next_frame` emits a
packet, anything else is a fatal synchronization abort. -/
def captureStep (next_frame counter : ℕ) : StepAction :=
  if counter = (next_frame + 4294967295) % 4294967296 then StepAction.skip
  else if counter = next_frame % 4294967296 then StepAction.emit
  else StepAction.abortSync

/-- Modelled from the spec: the capture cycle over a sequence of observed
counter values.  Returns the counters at which packets were emitted and
whether the session aborted with a synchronization error; on abort no
further packets are emitted and the packets already written are kept. -/
def captureLoop : ℕ → List ℕ → List ℕ × Bool
  | _, [] => ([], false)
  | next_frame, c :: cs =>
    match captureStep next_frame c with
    | StepAction.skip => captureLoop next_frame cs
    | StepAction.emit =>
      let rest := captureLoop ((c + 1) % 4294967296) cs
      (c :: rest.1, rest.2)
    | StepAction.abortSync => ([], true)

-- ---------------------------------------------------------------------------
-- __main__.py: CLI address parsing and the malformed-address path

/-- Python `str.strip()` whitespace characters that matter here. -/
def isPySpace (c : Char) : Bool :=
  decide (c = ' ') || decide (c = '\t') || decide (c = '\n') || decide (c = '\r') ||
    decide (c = '\x0b') || decide (c = '\x0c')

/-- Hexadecimal digit value of a character, if any. -/
def digitVal (c : Char) : Option ℕ :=
  if '0' ≤ c ∧ c ≤ '9' then some (c.toNat - '0'.toNat)
  else if 'a' ≤ c ∧ c ≤ 'f' then some (c.toNat - 'a'.toNat + 10)
  else if 'A' ≤ c ∧ c ≤ 'F' then some (c.toNat - 'A'.toNat + 10)
  else none

/-- Digit-run parser for Python `int(s, base)` bodies: single underscores are
allowed between digits (`allowU` tracks whether an underscore may appear
here, `seen` whether a digit has appeared), the run must end with a digit. -/
def digitsCore (base : ℕ) : List Char → Bool → Bool → ℕ → Option ℕ
  | [], allowU, seen, acc => if seen && allowU then some acc else none
  | '_' :: rest, allowU, seen, acc =>
    if allowU then digitsCore base rest false seen acc else none
  | c :: rest, _, _, acc =>
    match digitVal c with
    | some d => if d < base then digitsCore base rest true true (acc * base + d) else none
    | none => none

/-- Python `int(s, 0)`: optional surrounding whitespace and sign, then a
`0x`/`0o`/`0b` prefixed literal or a decimal literal without leading zeros
(an all-zero token is allowed). -/
def pyIntBase0 (s : String) : Option ℤ :=
  let l := ((s.toList.dropWhile isPySpace).reverse.dropWhile isPySpace).reverse
  let sgn : ℤ := match l with
    | '-' :: _ => -1
    | _ => 1
  let l := match l with
    | '+' :: rest => rest
    | '-' :: rest => rest
    | _ => l
  match l with
  | '0' :: c :: rest =>
    if c = 'x' ∨ c = 'X' then (digitsCore 16 rest true false 0).map (fun n => sgn * n)
    else if c = 'o' ∨ c = 'O' then (digitsCore 8 rest true false 0).map (fun n => sgn * n)
    else if c = 'b' ∨ c = 'B' then (digitsCore 2 rest true false 0).map (fun n => sgn * n)
    else
      match digitsCore 10 l false false 0 with
      | some n => if n = 0 then some 0 else none
      | none => none
  | _ => (digitsCore 10 l false false 0).map (fun n => sgn * n)

/-- Observable outcome of one CLI invocation. -/
structure CliOutcome where
  error_reported : Bool
  recording_started : Bool
  exit_code : ℕ
deriving DecidableEq

/-- `handle_dolphin` plus the surrounding `main`: a malformed address prints
an error to stderr and returns, after which `main` falls through and the
interpreter exits normally (exit code 0); a well-formed address starts
recording, and `handle_dolphin` likewise returns normally. -/
def cli_run (address : String) : CliOutcome :=
  match pyIntBase0 address with
  | none => ⟨true, false, 0⟩
  | some _ => ⟨false, true, 0⟩

-- ---------------------------------------------------------------------------
-- Spec-side definitions (written from the specification's words, to be
-- compared with the source-derived definitions above)

/-- The shift ratio as the specification words it: `(256 << s) * (1/256)` for
non-negative `s` and `(256 >> -s) * (1/256)` for negative `s`. -/
def ratioSpec (shift : ℤ) : ℚ :=
  if 0 ≤ shift then
    ((256 <<< shift.toNat : ℕ) : ℚ) * (1 / 256)
  else
    ((256 >>> (-shift).toNat : ℕ) : ℚ) * (1 / 256)

/-- The payload length the specification predicts for a bitmask: the sum of
the byte-widths of the flagged fields, float position taking precedence over
int position. -/
def expectedLen (st : RawGhostData) : ℕ :=
  (if hasFlag st.packet_flags PACKET_FLAG_POSITION_FLOAT then 12
   else if hasFlag st.packet_flags PACKET_FLAG_POSITION_INT then 6 else 0) +
  (if hasFlag st.packet_flags PACKET_FLAG_VELOCITY then 3 else 0) +
  (if hasFlag st.packet_flags PACKET_FLAG_SCALE then 3 else 0) +
  (if hasFlag st.packet_flags PACKET_FLAG_ROTATION_X then 1 else 0) +
  (if hasFlag st.packet_flags PACKET_FLAG_ROTATION_Y then 1 else 0) +
  (if hasFlag st.packet_flags PACKET_FLAG_ROTATION_Z then 1 else 0) +
  (if hasFlag st.packet_flags PACKET_FLAG_ACTION_NAME then st.action_name.length + 1 else 0) +
  (if hasFlag st.packet_flags PACKET_FLAG_ACTION_HASH then 4 else 0) +
  (if hasFlag st.packet_flags PACKET_FLAG_BCK_FRAME then 1 else 0) +
  (if hasFlag st.packet_flags PACKET_FLAG_BCK_RATE then 1 else 0) +
  (if hasFlag st.packet_flags PACKET_FLAG_TRACK_WEIGHT_0 then 1 else 0) +
  (if hasFlag st.packet_flags PACKET_FLAG_TRACK_WEIGHT_1 then 1 else 0) +
  (if hasFlag st.packet_flags PACKET_FLAG_TRACK_WEIGHT_2 then 1 else 0) +
  (if hasFlag st.packet_flags PACKET_FLAG_TRACK_WEIGHT_3 then 1 else 0)

/-- The range conditions under which every flagged field fits its wire
encoding, so that `pack` has nothing to fail on. -/
def packSafe (st : RawGhostData) : Prop :=
  (hasFlag st.packet_flags PACKET_FLAG_POSITION_FLOAT = true →
    (f32bits st.position_f.x).isSome ∧ (f32bits st.position_f.y).isSome ∧
      (f32bits st.position_f.z).isSome) ∧
  (hasFlag st.packet_flags PACKET_FLAG_POSITION_FLOAT = false →
    hasFlag st.packet_flags PACKET_FLAG_POSITION_INT = true →
    (-32768 ≤ st.position.x ∧ st.position.x ≤ 32767) ∧
      (-32768 ≤ st.position.y ∧ st.position.y ≤ 32767) ∧
      (-32768 ≤ st.position.z ∧ st.position.z ≤ 32767)) ∧
  (hasFlag st.packet_flags PACKET_FLAG_VELOCITY = true →
    (-128 ≤ st.velocity.x ∧ st.velocity.x ≤ 127) ∧
      (-128 ≤ st.velocity.y ∧ st.velocity.y ≤ 127) ∧
      (-128 ≤ st.velocity.z ∧ st.velocity.z ≤ 127)) ∧
  (hasFlag st.packet_flags PACKET_FLAG_SCALE = true →
    (-128 ≤ st.scale.x ∧ st.scale.x ≤ 127) ∧
      (-128 ≤ st.scale.y ∧ st.scale.y ≤ 127) ∧
      (-128 ≤ st.scale.z ∧ st.scale.z ≤ 127)) ∧
  (hasFlag st.packet_flags PACKET_FLAG_ROTATION_X = true →
    -128 ≤ st.rotation.x ∧ st.rotation.x ≤ 127) ∧
  (hasFlag st.packet_flags PACKET_FLAG_ROTATION_Y = true →
    -128 ≤ st.rotation.y ∧ st.rotation.y ≤ 127) ∧
  (hasFlag st.packet_flags PACKET_FLAG_ROTATION_Z = true →
    -128 ≤ st.rotation.z ∧ st.rotation.z ≤ 127) ∧
  (hasFlag st.packet_flags PACKET_FLAG_ACTION_NAME = true →
    ∀ c ∈ st.action_name, c < 128) ∧
  (hasFlag st.packet_flags PACKET_FLAG_ACTION_HASH = true →
    0 ≤ st.action_hash ∧ st.action_hash < 4294967296) ∧
  (hasFlag st.packet_flags PACKET_FLAG_BCK_FRAME = true →
    -128 ≤ st.bck_frame ∧ st.bck_frame ≤ 127) ∧
  (hasFlag st.packet_flags PACKET_FLAG_BCK_RATE = true →
    -128 ≤ st.bck_rate ∧ st.bck_rate ≤ 127) ∧
  (hasFlag st.packet_flags PACKET_FLAG_TRACK_WEIGHT_0 = true →
    -128 ≤ st.track_weights.1 ∧ st.track_weights.1 ≤ 127) ∧
  (hasFlag st.packet_flags PACKET_FLAG_TRACK_WEIGHT_1 = true →
    -128 ≤ st.track_weights.2.1 ∧ st.track_weights.2.1 ≤ 127) ∧
  (hasFlag st.packet_flags PACKET_FLAG_TRACK_WEIGHT_2 = true →
    -128 ≤ st.track_weights.2.2.1 ∧ st.track_weights.2.2.1 ≤ 127) ∧
  (hasFlag st.packet_flags PACKET_FLAG_TRACK_WEIGHT_3 = true →
    -128 ≤ st.track_weights.2.2.2 ∧ st.track_weights.2.2.2 ≤ 127)

-- ---------------------------------------------------------------------------
-- Helper lemmas

lemma ite_bne_eq {α : Type} [DecidableEq α] (a b : α) : (if a != b then b else a) = b := by
  by_cases h : a = b
  · simp [h]
  · simp [bne_iff_ne, h]

lemma accMask_all_false (l : List (Bool × ℕ)) (m : ℕ) (h : ∀ p ∈ l, p.1 = false) :
    accMask m l = m := by
  induction l generalizing m with
  | nil => rfl
  | cons p rest ih =>
    obtain ⟨c, f⟩ := p
    have hc : c = false := h (c, f) (by simp)
    subst hc
    simpa [accMask] using ih m (fun q hq => h q (by simp [hq]))

lemma accMask_testBit (l : List (Bool × ℕ)) (m k : ℕ) :
    (accMask m l).testBit k =
      (m.testBit k || l.any fun p => p.1 && p.2.testBit k) := by
  induction l generalizing m with
  | nil => simp [accMask]
  | cons p rest ih =>
    obtain ⟨c, f⟩ := p
    cases c
    · simpa [accMask] using ih m
    · simp [accMask, ih, Nat.testBit_lor, Bool.or_assoc]

lemma hasFlag_ofNat_pow (m k : ℕ) : hasFlag ((m : ℕ) : ℤ) (2 ^ k) = m.testBit k := by
  show (pyAnd (Int.ofNat m) (2 ^ k) != 0) = m.testBit k
  show (m &&& 2 ^ k != 0) = m.testBit k
  rw [Nat.and_two_pow]
  have h2 : (2 : ℕ) ^ k ≠ 0 := by positivity
  cases h : m.testBit k <;> simp [h, h2]

lemma mask_bit (s o : RawGhostData) (k : ℕ) :
    hasFlag (compare_and_update s o).packet_flags (2 ^ k) =
      ((cmpGuards s o).any fun p => p.1 && p.2.testBit k) := by
  show hasFlag ((accMask 0 (cmpGuards s o) : ℕ) : ℤ) (2 ^ k) = _
  rw [hasFlag_ofNat_pow, accMask_testBit]
  simp

lemma pytrunc_intCast (n : ℤ) : pytrunc ((n : ℤ) : ℚ) = n := by
  unfold pytrunc
  rw [Rat.num_intCast, Rat.den_intCast]
  simp

lemma shift_ratio_7 : get_shift_ratio 7 = 128 := by
  rw [show get_shift_ratio 7 = ((32768 : ℕ) : ℚ) * (1 / 256) from rfl]
  norm_num

lemma shift_ratio_3 : get_shift_ratio 3 = 8 := by
  rw [show get_shift_ratio 3 = ((2048 : ℕ) : ℚ) * (1 / 256) from rfl]
  norm_num

lemma shift_ratio_eq (s : ℤ) : get_shift_ratio s = ratioSpec s := by
  unfold get_shift_ratio ratioSpec
  rcases lt_trichotomy s 0 with h | h | h
  · rw [if_neg (by omega), if_neg (by omega)]
  · subst h
    rw [if_neg (by omega), if_pos (by omega)]
    rfl
  · rw [if_pos h, if_pos (by omega)]

lemma bne_ite_eq_ne_ite {α β : Type} [DecidableEq α] (a b : α) (c d : β) :
    (if a != b then c else d) = if a ≠ b then c else d := by
  by_cases h : a = b <;> simp [h]

-- ---------------------------------------------------------------------------
-- Claim theorems

/-- C4: for every value `v` and shift `s`, the quantization of `v` at shift
`s` equals the truncation toward zero of `v * ratio(s)` with
`ratio(s) = (256 << s) / 256` for non-negative `s` and `(256 >> -s) / 256`
for negative `s`; position quantizes with shift -2 and rotation with shift 7
after clamping to [-180, 180]. -/
theorem c4_quantize_contract :
    (∀ s : ℤ, get_shift_ratio s = ratioSpec s) ∧
    (∀ (v : ℚ) (s : ℤ), quantize v s = pytrunc (v * ratioSpec s)) ∧
    (∀ (st : RawGhostData) (p : Vec3f),
      (set_position st p).position =
        ⟨quantize p.x (-2), quantize p.y (-2), quantize p.z (-2)⟩) ∧
    (∀ (st : RawGhostData) (r : Vec3f),
      (set_rotation st r).rotation =
        ⟨quantize (clamp (-180) 180 r.x) 7, quantize (clamp (-180) 180 r.y) 7,
         quantize (clamp (-180) 180 r.z) 7⟩) := by
  refine ⟨shift_ratio_eq, fun v s => ?_, fun st p => rfl, fun st r => rfl⟩
  unfold quantize
  rw [shift_ratio_eq]

/-- C3 counterexample: the claim says track weights quantize with shift 3,
but `set_track_weights` uses shift 7: the weight 1/2 is stored as 64, while
the shift-3 quantization of 1/2 is 4. -/
theorem c3_counterexample :
    (set_track_weights (init 0) (1/2, 0, 0, 0)).track_weights.1 = 64 ∧
    pytrunc (1/2 * get_shift_ratio 3) = 4 ∧ (64 : ℤ) ≠ 4 := by
  refine ⟨?_, ?_, by decide⟩
  · show quantizeWeight (1/2) = 64
    unfold quantizeWeight
    rw [if_neg (by norm_num), shift_ratio_7,
      show (1/2 : ℚ) * 128 = ((64 : ℤ) : ℚ) from by norm_num, pytrunc_intCast]
  · rw [shift_ratio_3, show (1/2 : ℚ) * 8 = ((4 : ℤ) : ℚ) from by norm_num, pytrunc_intCast]

/-- C3 amended: track weights are quantized with shift 7 (ratio 128), an
input weight of exactly 1.0 encodes as -128 instead of the shift-scaled
value, and every other weight stores the shift-7-scaled truncation. -/
theorem c3_track_weights_amended :
    (∀ (st : RawGhostData) (w : ℚ × ℚ × ℚ × ℚ),
      (set_track_weights st w).track_weights =
        (quantizeWeight w.1, quantizeWeight w.2.1,
         quantizeWeight w.2.2.1, quantizeWeight w.2.2.2)) ∧
    quantizeWeight 1 = -128 ∧
    get_shift_ratio 7 = 128 ∧
    (∀ w : ℚ, w ≠ 1 → quantizeWeight w = pytrunc (w * 128)) := by
  refine ⟨fun st w => rfl, ?_, shift_ratio_7, fun w hw => ?_⟩
  · unfold quantizeWeight
    rw [if_pos rfl]
  · unfold quantizeWeight
    rw [if_neg hw, shift_ratio_7]

/-- C3 witness: instantiates the amended quantization rule at weight 1/2. -/
theorem c3_witness : quantizeWeight (1/2) = pytrunc (1/2 * 128) :=
  c3_track_weights_amended.2.2.2 (1/2) (by norm_num)

/-- C6: running `compare_and_update` a second time against the same incoming
snapshot yields an all-zero bitmask: no field appears changed against
itself. -/
theorem c6_delta_idempotent (self other : RawGhostData) :
    (compare_and_update (compare_and_update self other) other).packet_flags = 0 := by
  set r := compare_and_update self other with hr
  have hpos : r.position = other.position := ite_bne_eq _ _
  have hscale : r.scale = other.scale := ite_bne_eq _ _
  have hrx : r.rotation.x = other.rotation.x := ite_bne_eq _ _
  have hry : r.rotation.y = other.rotation.y := ite_bne_eq _ _
  have hrz : r.rotation.z = other.rotation.z := ite_bne_eq _ _
  have hbf : r.bck_frame = other.bck_frame := ite_bne_eq _ _
  have hbr : r.bck_rate = other.bck_rate := ite_bne_eq _ _
  have hw0 : r.track_weights.1 = other.track_weights.1 := ite_bne_eq _ _
  have hw1 : r.track_weights.2.1 = other.track_weights.2.1 := ite_bne_eq _ _
  have hw2 : r.track_weights.2.2.1 = other.track_weights.2.2.1 := ite_bne_eq _ _
  have hw3 : r.track_weights.2.2.2 = other.track_weights.2.2.2 := ite_bne_eq _ _
  have htype : r.ghost_data_type = self.ghost_data_type := rfl
  have hall : ∀ p ∈ cmpGuards r other, p.1 = false := by
    intro p hp
    simp only [cmpGuards, List.mem_cons, List.not_mem_nil, or_false] at hp
    rcases hp with rfl | rfl | rfl | rfl | rfl | rfl | rfl | rfl | rfl | rfl | rfl | rfl | rfl
    · simp [hpos]
    · simp [hscale]
    · simp [hrx]
    · simp [hry]
    · simp [hrz]
    · by_cases ht : self.ghost_data_type = GHOST_TYPE_PICHAN_RACER
      · have hnm : r.action_name = other.action_name := by
          show (if (self.action_name != other.action_name) &&
              decide (self.ghost_data_type ∈ [GHOST_TYPE_PICHAN_RACER]) then
            other.action_name else self.action_name) = other.action_name
          by_cases h : self.action_name = other.action_name
          · simp [h]
          · simp [bne_iff_ne, h, ht]
        simp [hnm]
      · simp [htype, List.mem_singleton, ht]
    · by_cases ht : self.ghost_data_type = GHOST_TYPE_GHOST_ATTACK_GHOST
      · have hha : r.action_hash = other.action_hash := by
          show (if (self.action_hash != other.action_hash) &&
              decide (self.ghost_data_type ∈ [GHOST_TYPE_GHOST_ATTACK_GHOST]) then
            other.action_hash else self.action_hash) = other.action_hash
          by_cases h : self.action_hash = other.action_hash
          · simp [h]
          · simp [bne_iff_ne, h, ht]
        simp [hha]
      · simp [htype, List.mem_singleton, ht]
    · simp [hbf]
    · simp [hbr]
    · simp [hw0]
    · simp [hw1]
    · simp [hw2]
    · simp [hw3]
  show ((accMask 0 (cmpGuards r other) : ℕ) : ℤ) = 0
  rw [accMask_all_false _ _ hall]
  rfl

/-- The bitmask and packed bytes of `pack` do not depend on the ghost-data
type field. -/
lemma pack_ghost_type (st : RawGhostData) (t : ℤ) :
    pack { st with ghost_data_type := t } = pack st := rfl

/-- C10: a freshly constructed `RawGhostData` carries the `-1` packet-flags
sentinel, so `pack` emits every field (float position taking precedence over
int position, 12 + 3 + 3 + 3 + 1 + 4 + 1 + 1 + 4 = 32 zero bytes) and
returns -1 as the bitmask. -/
theorem c10_fresh_pack (t : ℤ) :
    (init t).packet_flags = -1 ∧
    pack (init t) = Except.ok (List.replicate 32 0, -1) := by
  refine ⟨rfl, ?_⟩
  have h : pack (init t) = pack (init 0) := pack_ghost_type (init 0) t
  rw [h]
  rfl

/-- C1 counterexample: for a snapshot of the reserved ghost type
`GHOST_TYPE_GHOST_PLAYER_MARIO` the incoming action name differs from the
retained one and the hash selector does not hold, yet `compare_and_update`
produces an all-zero bitmask: neither the action-name bit nor any other bit
is set, so the presence bit is not set if-and-only-if the field differs. -/
theorem c1_counterexample :
    (compare_and_update (init GHOST_TYPE_GHOST_PLAYER_MARIO)
        (set_action_name (init GHOST_TYPE_GHOST_PLAYER_MARIO) [98])).packet_flags = 0 ∧
    (init GHOST_TYPE_GHOST_PLAYER_MARIO).action_name ≠
      (set_action_name (init GHOST_TYPE_GHOST_PLAYER_MARIO) [98]).action_name ∧
    (init GHOST_TYPE_GHOST_PLAYER_MARIO).ghost_data_type ≠ GHOST_TYPE_GHOST_ATTACK_GHOST := by
  refine ⟨rfl, by decide, by decide⟩

/-- C1 amended: `compare_and_update` sets the presence bit of position,
scale, each rotation axis, BCK frame, BCK rate and each track weight exactly
when the quantized value differs, overwriting the retained field on
inequality and leaving it unchanged on equality; the action-name bit is set
exactly when the name differs AND the ghost type is `PICHAN_RACER`, the
action-hash bit exactly when the hash differs AND the ghost type is
`GHOST_ATTACK_GHOST` (so at most one of the two can ever be set, and for the
two reserved ghost types neither can); velocity and the float position are
never compared and their bits never set. -/
theorem c1_bitmask_amended (s o : RawGhostData) :
    (hasFlag (compare_and_update s o).packet_flags PACKET_FLAG_POSITION_INT = true ↔
      s.position ≠ o.position) ∧
    (hasFlag (compare_and_update s o).packet_flags PACKET_FLAG_SCALE = true ↔
      s.scale ≠ o.scale) ∧
    (hasFlag (compare_and_update s o).packet_flags PACKET_FLAG_ROTATION_X = true ↔
      s.rotation.x ≠ o.rotation.x) ∧
    (hasFlag (compare_and_update s o).packet_flags PACKET_FLAG_ROTATION_Y = true ↔
      s.rotation.y ≠ o.rotation.y) ∧
    (hasFlag (compare_and_update s o).packet_flags PACKET_FLAG_ROTATION_Z = true ↔
      s.rotation.z ≠ o.rotation.z) ∧
    (hasFlag (compare_and_update s o).packet_flags PACKET_FLAG_ACTION_NAME = true ↔
      (s.action_name ≠ o.action_name ∧ s.ghost_data_type = GHOST_TYPE_PICHAN_RACER)) ∧
    (hasFlag (compare_and_update s o).packet_flags PACKET_FLAG_ACTION_HASH = true ↔
      (s.action_hash ≠ o.action_hash ∧ s.ghost_data_type = GHOST_TYPE_GHOST_ATTACK_GHOST)) ∧
    (hasFlag (compare_and_update s o).packet_flags PACKET_FLAG_BCK_FRAME = true ↔
      s.bck_frame ≠ o.bck_frame) ∧
    (hasFlag (compare_and_update s o).packet_flags PACKET_FLAG_BCK_RATE = true ↔
      s.bck_rate ≠ o.bck_rate) ∧
    (hasFlag (compare_and_update s o).packet_flags PACKET_FLAG_TRACK_WEIGHT_0 = true ↔
      s.track_weights.1 ≠ o.track_weights.1) ∧
    (hasFlag (compare_and_update s o).packet_flags PACKET_FLAG_TRACK_WEIGHT_1 = true ↔
      s.track_weights.2.1 ≠ o.track_weights.2.1) ∧
    (hasFlag (compare_and_update s o).packet_flags PACKET_FLAG_TRACK_WEIGHT_2 = true ↔
      s.track_weights.2.2.1 ≠ o.track_weights.2.2.1) ∧
    (hasFlag (compare_and_update s o).packet_flags PACKET_FLAG_TRACK_WEIGHT_3 = true ↔
      s.track_weights.2.2.2 ≠ o.track_weights.2.2.2) ∧
    hasFlag (compare_and_update s o).packet_flags PACKET_FLAG_VELOCITY = false ∧
    hasFlag (compare_and_update s o).packet_flags PACKET_FLAG_POSITION_FLOAT = false ∧
    ¬(hasFlag (compare_and_update s o).packet_flags PACKET_FLAG_ACTION_NAME = true ∧
      hasFlag (compare_and_update s o).packet_flags PACKET_FLAG_ACTION_HASH = true) ∧
    (compare_and_update s o).position =
      (if s.position ≠ o.position then o.position else s.position) ∧
    (compare_and_update s o).scale = (if s.scale ≠ o.scale then o.scale else s.scale) ∧
    (compare_and_update s o).rotation.x =
      (if s.rotation.x ≠ o.rotation.x then o.rotation.x else s.rotation.x) ∧
    (compare_and_update s o).rotation.y =
      (if s.rotation.y ≠ o.rotation.y then o.rotation.y else s.rotation.y) ∧
    (compare_and_update s o).rotation.z =
      (if s.rotation.z ≠ o.rotation.z then o.rotation.z else s.rotation.z) ∧
    (compare_and_update s o).action_name =
      (if s.action_name ≠ o.action_name ∧ s.ghost_data_type = GHOST_TYPE_PICHAN_RACER
       then o.action_name else s.action_name) ∧
    (compare_and_update s o).action_hash =
      (if s.action_hash ≠ o.action_hash ∧ s.ghost_data_type = GHOST_TYPE_GHOST_ATTACK_GHOST
       then o.action_hash else s.action_hash) ∧
    (compare_and_update s o).bck_frame =
      (if s.bck_frame ≠ o.bck_frame then o.bck_frame else s.bck_frame) ∧
    (compare_and_update s o).bck_rate =
      (if s.bck_rate ≠ o.bck_rate then o.bck_rate else s.bck_rate) ∧
    (compare_and_update s o).track_weights.1 =
      (if s.track_weights.1 ≠ o.track_weights.1 then o.track_weights.1
       else s.track_weights.1) ∧
    (compare_and_update s o).track_weights.2.1 =
      (if s.track_weights.2.1 ≠ o.track_weights.2.1 then o.track_weights.2.1
       else s.track_weights.2.1) ∧
    (compare_and_update s o).track_weights.2.2.1 =
      (if s.track_weights.2.2.1 ≠ o.track_weights.2.2.1 then o.track_weights.2.2.1
       else s.track_weights.2.2.1) ∧
    (compare_and_update s o).track_weights.2.2.2 =
      (if s.track_weights.2.2.2 ≠ o.track_weights.2.2.2 then o.track_weights.2.2.2
       else s.track_weights.2.2.2) ∧
    (compare_and_update s o).velocity = s.velocity ∧
    (compare_and_update s o).position_f = s.position_f ∧
    (compare_and_update s o).ghost_data_type = s.ghost_data_type := by
  have h1 : hasFlag (compare_and_update s o).packet_flags PACKET_FLAG_POSITION_INT = true ↔
      s.position ≠ o.position := by
    rw [show PACKET_FLAG_POSITION_INT = 2 ^ 0 from by decide, mask_bit]
    simp only [cmpGuards, List.any_cons, List.any_nil]
    simp only [Nat.testBit_to_div_mod, PACKET_FLAG_POSITION_INT, PACKET_FLAG_SCALE,
      PACKET_FLAG_ROTATION_X, PACKET_FLAG_ROTATION_Y, PACKET_FLAG_ROTATION_Z,
      PACKET_FLAG_ACTION_NAME, PACKET_FLAG_ACTION_HASH, PACKET_FLAG_BCK_FRAME,
      PACKET_FLAG_BCK_RATE, PACKET_FLAG_TRACK_WEIGHT_0, PACKET_FLAG_TRACK_WEIGHT_1,
      PACKET_FLAG_TRACK_WEIGHT_2, PACKET_FLAG_TRACK_WEIGHT_3]
    norm_num
  have h2 : hasFlag (compare_and_update s o).packet_flags PACKET_FLAG_SCALE = true ↔
      s.scale ≠ o.scale := by
    rw [show PACKET_FLAG_SCALE = 2 ^ 10 from by decide, mask_bit]
    simp only [cmpGuards, List.any_cons, List.any_nil]
    simp only [Nat.testBit_to_div_mod, PACKET_FLAG_POSITION_INT, PACKET_FLAG_SCALE,
      PACKET_FLAG_ROTATION_X, PACKET_FLAG_ROTATION_Y, PACKET_FLAG_ROTATION_Z,
      PACKET_FLAG_ACTION_NAME, PACKET_FLAG_ACTION_HASH, PACKET_FLAG_BCK_FRAME,
      PACKET_FLAG_BCK_RATE, PACKET_FLAG_TRACK_WEIGHT_0, PACKET_FLAG_TRACK_WEIGHT_1,
      PACKET_FLAG_TRACK_WEIGHT_2, PACKET_FLAG_TRACK_WEIGHT_3]
    norm_num
  have h3 : hasFlag (compare_and_update s o).packet_flags PACKET_FLAG_ROTATION_X = true ↔
      s.rotation.x ≠ o.rotation.x := by
    rw [show PACKET_FLAG_ROTATION_X = 2 ^ 1 from by decide, mask_bit]
    simp only [cmpGuards, List.any_cons, List.any_nil]
    simp only [Nat.testBit_to_div_mod, PACKET_FLAG_POSITION_INT, PACKET_FLAG_SCALE,
      PACKET_FLAG_ROTATION_X, PACKET_FLAG_ROTATION_Y, PACKET_FLAG_ROTATION_Z,
      PACKET_FLAG_ACTION_NAME, PACKET_FLAG_ACTION_HASH, PACKET_FLAG_BCK_FRAME,
      PACKET_FLAG_BCK_RATE, PACKET_FLAG_TRACK_WEIGHT_0, PACKET_FLAG_TRACK_WEIGHT_1,
      PACKET_FLAG_TRACK_WEIGHT_2, PACKET_FLAG_TRACK_WEIGHT_3]
    norm_num
  have h4 : hasFlag (compare_and_update s o).packet_flags PACKET_FLAG_ROTATION_Y = true ↔
      s.rotation.y ≠ o.rotation.y := by
    rw [show PACKET_FLAG_ROTATION_Y = 2 ^ 2 from by decide, mask_bit]
    simp only [cmpGuards, List.any_cons, List.any_nil]
    simp only [Nat.testBit_to_div_mod, PACKET_FLAG_POSITION_INT, PACKET_FLAG_SCALE,
      PACKET_FLAG_ROTATION_X, PACKET_FLAG_ROTATION_Y, PACKET_FLAG_ROTATION_Z,
      PACKET_FLAG_ACTION_NAME, PACKET_FLAG_ACTION_HASH, PACKET_FLAG_BCK_FRAME,
      PACKET_FLAG_BCK_RATE, PACKET_FLAG_TRACK_WEIGHT_0, PACKET_FLAG_TRACK_WEIGHT_1,
      PACKET_FLAG_TRACK_WEIGHT_2, PACKET_FLAG_TRACK_WEIGHT_3]
    norm_num
  have h5 : hasFlag (compare_and_update s o).packet_flags PACKET_FLAG_ROTATION_Z = true ↔
      s.rotation.z ≠ o.rotation.z := by
    rw [show PACKET_FLAG_ROTATION_Z = 2 ^ 3 from by decide, mask_bit]
    simp only [cmpGuards, List.any_cons, List.any_nil]
    simp only [Nat.testBit_to_div_mod, PACKET_FLAG_POSITION_INT, PACKET_FLAG_SCALE,
      PACKET_FLAG_ROTATION_X, PACKET_FLAG_ROTATION_Y, PACKET_FLAG_ROTATION_Z,
      PACKET_FLAG_ACTION_NAME, PACKET_FLAG_ACTION_HASH, PACKET_FLAG_BCK_FRAME,
      PACKET_FLAG_BCK_RATE, PACKET_FLAG_TRACK_WEIGHT_0, PACKET_FLAG_TRACK_WEIGHT_1,
      PACKET_FLAG_TRACK_WEIGHT_2, PACKET_FLAG_TRACK_WEIGHT_3]
    norm_num
  have h6 : hasFlag (compare_and_update s o).packet_flags PACKET_FLAG_ACTION_NAME = true ↔
      (s.action_name ≠ o.action_name ∧ s.ghost_data_type = GHOST_TYPE_PICHAN_RACER) := by
    rw [show PACKET_FLAG_ACTION_NAME = 2 ^ 4 from by decide, mask_bit]
    simp only [cmpGuards, List.any_cons, List.any_nil]
    simp only [Nat.testBit_to_div_mod, PACKET_FLAG_POSITION_INT, PACKET_FLAG_SCALE,
      PACKET_FLAG_ROTATION_X, PACKET_FLAG_ROTATION_Y, PACKET_FLAG_ROTATION_Z,
      PACKET_FLAG_ACTION_NAME, PACKET_FLAG_ACTION_HASH, PACKET_FLAG_BCK_FRAME,
      PACKET_FLAG_BCK_RATE, PACKET_FLAG_TRACK_WEIGHT_0, PACKET_FLAG_TRACK_WEIGHT_1,
      PACKET_FLAG_TRACK_WEIGHT_2, PACKET_FLAG_TRACK_WEIGHT_3]
    norm_num
  have h7 : hasFlag (compare_and_update s o).packet_flags PACKET_FLAG_ACTION_HASH = true ↔
      (s.action_hash ≠ o.action_hash ∧ s.ghost_data_type = GHOST_TYPE_GHOST_ATTACK_GHOST) := by
    rw [show PACKET_FLAG_ACTION_HASH = 2 ^ 13 from by decide, mask_bit]
    simp only [cmpGuards, List.any_cons, List.any_nil]
    simp only [Nat.testBit_to_div_mod, PACKET_FLAG_POSITION_INT, PACKET_FLAG_SCALE,
      PACKET_FLAG_ROTATION_X, PACKET_FLAG_ROTATION_Y, PACKET_FLAG_ROTATION_Z,
      PACKET_FLAG_ACTION_NAME, PACKET_FLAG_ACTION_HASH, PACKET_FLAG_BCK_FRAME,
      PACKET_FLAG_BCK_RATE, PACKET_FLAG_TRACK_WEIGHT_0, PACKET_FLAG_TRACK_WEIGHT_1,
      PACKET_FLAG_TRACK_WEIGHT_2, PACKET_FLAG_TRACK_WEIGHT_3]
    norm_num
  have h8 : hasFlag (compare_and_update s o).packet_flags PACKET_FLAG_BCK_FRAME = true ↔
      s.bck_frame ≠ o.bck_frame := by
    rw [show PACKET_FLAG_BCK_FRAME = 2 ^ 5 from by decide, mask_bit]
    simp only [cmpGuards, List.any_cons, List.any_nil]
    simp only [Nat.testBit_to_div_mod, PACKET_FLAG_POSITION_INT, PACKET_FLAG_SCALE,
      PACKET_FLAG_ROTATION_X, PACKET_FLAG_ROTATION_Y, PACKET_FLAG_ROTATION_Z,
      PACKET_FLAG_ACTION_NAME, PACKET_FLAG_ACTION_HASH, PACKET_FLAG_BCK_FRAME,
      PACKET_FLAG_BCK_RATE, PACKET_FLAG_TRACK_WEIGHT_0, PACKET_FLAG_TRACK_WEIGHT_1,
      PACKET_FLAG_TRACK_WEIGHT_2, PACKET_FLAG_TRACK_WEIGHT_3]
    norm_num
  have h9 : hasFlag (compare_and_update s o).packet_flags PACKET_FLAG_BCK_RATE = true ↔
      s.bck_rate ≠ o.bck_rate := by
    rw [show PACKET_FLAG_BCK_RATE = 2 ^ 12 from by decide, mask_bit]
    simp only [cmpGuards, List.any_cons, List.any_nil]
    simp only [Nat.testBit_to_div_mod, PACKET_FLAG_POSITION_INT, PACKET_FLAG_SCALE,
      PACKET_FLAG_ROTATION_X, PACKET_FLAG_ROTATION_Y, PACKET_FLAG_ROTATION_Z,
      PACKET_FLAG_ACTION_NAME, PACKET_FLAG_ACTION_HASH, PACKET_FLAG_BCK_FRAME,
      PACKET_FLAG_BCK_RATE, PACKET_FLAG_TRACK_WEIGHT_0, PACKET_FLAG_TRACK_WEIGHT_1,
      PACKET_FLAG_TRACK_WEIGHT_2, PACKET_FLAG_TRACK_WEIGHT_3]
    norm_num
  have h10 : hasFlag (compare_and_update s o).packet_flags PACKET_FLAG_TRACK_WEIGHT_0 = true ↔
      s.track_weights.1 ≠ o.track_weights.1 := by
    rw [show PACKET_FLAG_TRACK_WEIGHT_0 = 2 ^ 6 from by decide, mask_bit]
    simp only [cmpGuards, List.any_cons, List.any_nil]
    simp only [Nat.testBit_to_div_mod, PACKET_FLAG_POSITION_INT, PACKET_FLAG_SCALE,
      PACKET_FLAG_ROTATION_X, PACKET_FLAG_ROTATION_Y, PACKET_FLAG_ROTATION_Z,
      PACKET_FLAG_ACTION_NAME, PACKET_FLAG_ACTION_HASH, PACKET_FLAG_BCK_FRAME,
      PACKET_FLAG_BCK_RATE, PACKET_FLAG_TRACK_WEIGHT_0, PACKET_FLAG_TRACK_WEIGHT_1,
      PACKET_FLAG_TRACK_WEIGHT_2, PACKET_FLAG_TRACK_WEIGHT_3]
    norm_num
  have h11 : hasFlag (compare_and_update s o).packet_flags PACKET_FLAG_TRACK_WEIGHT_1 = true ↔
      s.track_weights.2.1 ≠ o.track_weights.2.1 := by
    rw [show PACKET_FLAG_TRACK_WEIGHT_1 = 2 ^ 7 from by decide, mask_bit]
    simp only [cmpGuards, List.any_cons, List.any_nil]
    simp only [Nat.testBit_to_div_mod, PACKET_FLAG_POSITION_INT, PACKET_FLAG_SCALE,
      PACKET_FLAG_ROTATION_X, PACKET_FLAG_ROTATION_Y, PACKET_FLAG_ROTATION_Z,
      PACKET_FLAG_ACTION_NAME, PACKET_FLAG_ACTION_HASH, PACKET_FLAG_BCK_FRAME,
      PACKET_FLAG_BCK_RATE, PACKET_FLAG_TRACK_WEIGHT_0, PACKET_FLAG_TRACK_WEIGHT_1,
      PACKET_FLAG_TRACK_WEIGHT_2, PACKET_FLAG_TRACK_WEIGHT_3]
    norm_num
  have h12 : hasFlag (compare_and_update s o).packet_flags PACKET_FLAG_TRACK_WEIGHT_2 = true ↔
      s.track_weights.2.2.1 ≠ o.track_weights.2.2.1 := by
    rw [show PACKET_FLAG_TRACK_WEIGHT_2 = 2 ^ 8 from by decide, mask_bit]
    simp only [cmpGuards, List.any_cons, List.any_nil]
    simp only [Nat.testBit_to_div_mod, PACKET_FLAG_POSITION_INT, PACKET_FLAG_SCALE,
      PACKET_FLAG_ROTATION_X, PACKET_FLAG_ROTATION_Y, PACKET_FLAG_ROTATION_Z,
      PACKET_FLAG_ACTION_NAME, PACKET_FLAG_ACTION_HASH, PACKET_FLAG_BCK_FRAME,
      PACKET_FLAG_BCK_RATE, PACKET_FLAG_TRACK_WEIGHT_0, PACKET_FLAG_TRACK_WEIGHT_1,
      PACKET_FLAG_TRACK_WEIGHT_2, PACKET_FLAG_TRACK_WEIGHT_3]
    norm_num
  have h13 : hasFlag (compare_and_update s o).packet_flags PACKET_FLAG_TRACK_WEIGHT_3 = true ↔
      s.track_weights.2.2.2 ≠ o.track_weights.2.2.2 := by
    rw [show PACKET_FLAG_TRACK_WEIGHT_3 = 2 ^ 9 from by decide, mask_bit]
    simp only [cmpGuards, List.any_cons, List.any_nil]
    simp only [Nat.testBit_to_div_mod, PACKET_FLAG_POSITION_INT, PACKET_FLAG_SCALE,
      PACKET_FLAG_ROTATION_X, PACKET_FLAG_ROTATION_Y, PACKET_FLAG_ROTATION_Z,
      PACKET_FLAG_ACTION_NAME, PACKET_FLAG_ACTION_HASH, PACKET_FLAG_BCK_FRAME,
      PACKET_FLAG_BCK_RATE, PACKET_FLAG_TRACK_WEIGHT_0, PACKET_FLAG_TRACK_WEIGHT_1,
      PACKET_FLAG_TRACK_WEIGHT_2, PACKET_FLAG_TRACK_WEIGHT_3]
    norm_num
  have h14 : hasFlag (compare_and_update s o).packet_flags PACKET_FLAG_VELOCITY = false := by
    rw [show PACKET_FLAG_VELOCITY = 2 ^ 11 from by decide, mask_bit]
    simp only [cmpGuards, List.any_cons, List.any_nil]
    simp only [Nat.testBit_to_div_mod, PACKET_FLAG_POSITION_INT, PACKET_FLAG_SCALE,
      PACKET_FLAG_ROTATION_X, PACKET_FLAG_ROTATION_Y, PACKET_FLAG_ROTATION_Z,
      PACKET_FLAG_ACTION_NAME, PACKET_FLAG_ACTION_HASH, PACKET_FLAG_BCK_FRAME,
      PACKET_FLAG_BCK_RATE, PACKET_FLAG_TRACK_WEIGHT_0, PACKET_FLAG_TRACK_WEIGHT_1,
      PACKET_FLAG_TRACK_WEIGHT_2, PACKET_FLAG_TRACK_WEIGHT_3]
    norm_num
  have h15 : hasFlag (compare_and_update s o).packet_flags PACKET_FLAG_POSITION_FLOAT = false := by
    rw [show PACKET_FLAG_POSITION_FLOAT = 2 ^ 14 from by decide, mask_bit]
    simp only [cmpGuards, List.any_cons, List.any_nil]
    simp only [Nat.testBit_to_div_mod, PACKET_FLAG_POSITION_INT, PACKET_FLAG_SCALE,
      PACKET_FLAG_ROTATION_X, PACKET_FLAG_ROTATION_Y, PACKET_FLAG_ROTATION_Z,
      PACKET_FLAG_ACTION_NAME, PACKET_FLAG_ACTION_HASH, PACKET_FLAG_BCK_FRAME,
      PACKET_FLAG_BCK_RATE, PACKET_FLAG_TRACK_WEIGHT_0, PACKET_FLAG_TRACK_WEIGHT_1,
      PACKET_FLAG_TRACK_WEIGHT_2, PACKET_FLAG_TRACK_WEIGHT_3]
    norm_num
  have h16 : ¬(hasFlag (compare_and_update s o).packet_flags PACKET_FLAG_ACTION_NAME = true ∧
      hasFlag (compare_and_update s o).packet_flags PACKET_FLAG_ACTION_HASH = true) := by
    rintro ⟨ha, hb⟩
    have e1 : s.ghost_data_type = GHOST_TYPE_PICHAN_RACER := (h6.mp ha).2
    have e2 : s.ghost_data_type = GHOST_TYPE_GHOST_ATTACK_GHOST := (h7.mp hb).2
    rw [e1] at e2
    exact absurd e2 (by decide)
  have hAN : (compare_and_update s o).action_name =
      (if s.action_name ≠ o.action_name ∧ s.ghost_data_type = GHOST_TYPE_PICHAN_RACER
       then o.action_name else s.action_name) := by
    show (if (s.action_name != o.action_name) &&
        decide (s.ghost_data_type ∈ [GHOST_TYPE_PICHAN_RACER]) then o.action_name
      else s.action_name) = _
    by_cases ha : s.action_name = o.action_name
    · simp [ha]
    · by_cases hb : s.ghost_data_type = GHOST_TYPE_PICHAN_RACER
      · simp [ha, hb]
      · simp [ha, hb]
  have hAH : (compare_and_update s o).action_hash =
      (if s.action_hash ≠ o.action_hash ∧ s.ghost_data_type = GHOST_TYPE_GHOST_ATTACK_GHOST
       then o.action_hash else s.action_hash) := by
    show (if (s.action_hash != o.action_hash) &&
        decide (s.ghost_data_type ∈ [GHOST_TYPE_GHOST_ATTACK_GHOST]) then o.action_hash
      else s.action_hash) = _
    by_cases ha : s.action_hash = o.action_hash
    · simp [ha]
    · by_cases hb : s.ghost_data_type = GHOST_TYPE_GHOST_ATTACK_GHOST
      · simp [ha, hb]
      · simp [ha, hb]
  exact ⟨h1, h2, h3, h4, h5, h6, h7, h8, h9, h10, h11, h12, h13, h14, h15, h16,
    bne_ite_eq_ne_ite _ _ _ _, bne_ite_eq_ne_ite _ _ _ _, bne_ite_eq_ne_ite _ _ _ _,
    bne_ite_eq_ne_ite _ _ _ _, bne_ite_eq_ne_ite _ _ _ _, hAN, hAH,
    bne_ite_eq_ne_ite _ _ _ _, bne_ite_eq_ne_ite _ _ _ _, bne_ite_eq_ne_ite _ _ _ _,
    bne_ite_eq_ne_ite _ _ _ _, bne_ite_eq_ne_ite _ _ _ _, bne_ite_eq_ne_ite _ _ _ _,
    rfl, rfl, rfl⟩

/-- C1 witness: instantiates the amended bitmask rule, showing the
action-hash bit set for a GhostAttackGhost snapshot whose hash changed. -/
theorem c1_witness :
    hasFlag (compare_and_update (init GHOST_TYPE_GHOST_ATTACK_GHOST)
      (set_action_hash (init GHOST_TYPE_GHOST_ATTACK_GHOST) 5)).packet_flags
      PACKET_FLAG_ACTION_HASH = true :=
  (c1_bitmask_amended (init GHOST_TYPE_GHOST_ATTACK_GHOST)
    (set_action_hash (init GHOST_TYPE_GHOST_ATTACK_GHOST) 5)).2.2.2.2.2.2.1.mpr
    ⟨by decide, rfl⟩


-- ---------------------------------------------------------------------------
-- Packing lemmas

lemma except_map_eq_ok {α β : Type} (f : α → β) (e : Except String α) (y : β) :
    e.map f = Except.ok y ↔ ∃ x, e = Except.ok x ∧ y = f x := by
  cases e with
  | error a => simp [Except.map]
  | ok a =>
    simp [Except.map]
    exact eq_comm

lemma seqChunks_ok_cons (c : Except String (List ℕ)) (cs : List (Except String (List ℕ)))
    (l : List ℕ) :
    seqChunks (c :: cs) = Except.ok l ↔
      ∃ x xs, c = Except.ok x ∧ seqChunks cs = Except.ok xs ∧ l = x ++ xs := by
  cases c with
  | error a => simp [seqChunks, Bind.bind, Except.bind]
  | ok x =>
    cases h : seqChunks cs with
    | error a => simp [seqChunks, Bind.bind, Except.bind, h, pure, Except.pure]
    | ok xs =>
      simp [seqChunks, Bind.bind, Except.bind, h, pure, Except.pure]
      exact eq_comm

lemma seqChunks_ex_iff (cs : List (Except String (List ℕ))) :
    (∃ l, seqChunks cs = Except.ok l) ↔ ∀ c ∈ cs, ∃ x, c = Except.ok x := by
  induction cs with
  | nil => simp [seqChunks, pure, Except.pure]
  | cons c rest ih =>
    constructor
    · rintro ⟨l, hl⟩
      rw [seqChunks_ok_cons] at hl
      obtain ⟨x, xs, hc, hrest, _⟩ := hl
      intro d hd
      rcases List.mem_cons.mp hd with rfl | hd
      · exact ⟨x, hc⟩
      · exact ih.mp ⟨xs, hrest⟩ d hd
    · intro hall
      obtain ⟨x, hx⟩ := hall c (List.mem_cons_self c rest)
      obtain ⟨xs, hxs⟩ := ih.mpr (fun d hd => hall d (List.mem_cons_of_mem c hd))
      exact ⟨x ++ xs, (seqChunks_ok_cons c rest (x ++ xs)).mpr ⟨x, xs, hx, hxs, rfl⟩⟩

lemma packS8_eq_ok (v : ℤ) (x : List ℕ) :
    packS8 v = Except.ok x ↔ ((-128 ≤ v ∧ v ≤ 127) ∧ x = [byteOfInt v]) := by
  unfold packS8
  split <;> simp_all <;> exact eq_comm

lemma packS8_ex_iff (v : ℤ) : (∃ x, packS8 v = Except.ok x) ↔ (-128 ≤ v ∧ v ≤ 127) := by
  simp [packS8_eq_ok]

lemma packS8_length (v : ℤ) (x : List ℕ) (h : packS8 v = Except.ok x) : x.length = 1 := by
  rw [packS8_eq_ok] at h
  rw [h.2]
  rfl

lemma packS16be_eq_ok (v : ℤ) (x : List ℕ) :
    packS16be v = Except.ok x ↔
      ((-32768 ≤ v ∧ v ≤ 32767) ∧
        x = [((v.emod 65536).toNat) / 256, ((v.emod 65536).toNat) % 256]) := by
  unfold packS16be
  split <;> simp_all <;> exact eq_comm

lemma packS16be_ex_iff (v : ℤ) :
    (∃ x, packS16be v = Except.ok x) ↔ (-32768 ≤ v ∧ v ≤ 32767) := by
  simp [packS16be_eq_ok]

lemma packS16be_length (v : ℤ) (x : List ℕ) (h : packS16be v = Except.ok x) : x.length = 2 := by
  rw [packS16be_eq_ok] at h
  rw [h.2]
  rfl

lemma packU32be_eq_ok (v : ℤ) (x : List ℕ) :
    packU32be v = Except.ok x ↔ ((0 ≤ v ∧ v < 4294967296) ∧ x = be32 v.toNat) := by
  unfold packU32be
  split <;> simp_all <;> exact eq_comm

lemma packU32be_ex_iff (v : ℤ) :
    (∃ x, packU32be v = Except.ok x) ↔ (0 ≤ v ∧ v < 4294967296) := by
  simp [packU32be_eq_ok]

lemma packU32be_length (v : ℤ) (x : List ℕ) (h : packU32be v = Except.ok x) : x.length = 4 := by
  rw [packU32be_eq_ok] at h
  rw [h.2]
  rfl

lemma packAsciiZ_eq_ok (s : List ℕ) (x : List ℕ) :
    packAsciiZ s = Except.ok x ↔
      (s.all (fun c => decide (c < 128)) = true ∧ x = s ++ [0]) := by
  unfold packAsciiZ
  split <;> simp_all <;> exact eq_comm

lemma packAsciiZ_ex_iff (s : List ℕ) :
    (∃ x, packAsciiZ s = Except.ok x) ↔ ∀ c ∈ s, c < 128 := by
  simp [packAsciiZ_eq_ok, List.all_eq_true]

lemma packAsciiZ_length (s x : List ℕ) (h : packAsciiZ s = Except.ok x) :
    x.length = s.length + 1 := by
  rw [packAsciiZ_eq_ok] at h
  rw [h.2]
  simp

lemma packF32be_ex_iff (q : ℚ) :
    (∃ x, packF32be q = Except.ok x) ↔ (f32bits q).isSome = true := by
  unfold packF32be
  cases h : f32bits q <;> simp

lemma packF32be_length (q : ℚ) (x : List ℕ) (h : packF32be q = Except.ok x) : x.length = 4 := by
  unfold packF32be at h
  cases hh : f32bits q with
  | none => rw [hh] at h; exact absurd h (by simp)
  | some b =>
    rw [hh] at h
    simp at h
    rw [← h]
    rfl

lemma packTriple_eq_ok (enc : ℤ → Except String (List ℕ)) (x y z : ℤ) (out : List ℕ) :
    packTriple enc x y z = Except.ok out ↔
      ∃ a b c, enc x = Except.ok a ∧ enc y = Except.ok b ∧ enc z = Except.ok c ∧
        out = a ++ b ++ c := by
  unfold packTriple
  cases hx : enc x with
  | error a => simp [Bind.bind, Except.bind]
  | ok a =>
    cases hy : enc y with
    | error b => simp [Bind.bind, Except.bind, hy]
    | ok b =>
      cases hz : enc z with
      | error c => simp [Bind.bind, Except.bind, hy, hz]
      | ok c =>
        simp [Bind.bind, Except.bind, hy, hz, pure, Except.pure]
        exact eq_comm

lemma packTripleF_eq_ok (x y z : ℚ) (out : List ℕ) :
    packTripleF x y z = Except.ok out ↔
      ∃ a b c, packF32be x = Except.ok a ∧ packF32be y = Except.ok b ∧
        packF32be z = Except.ok c ∧ out = a ++ b ++ c := by
  unfold packTripleF
  cases hx : packF32be x with
  | error a => simp [Bind.bind, Except.bind]
  | ok a =>
    cases hy : packF32be y with
    | error b => simp [Bind.bind, Except.bind, hy]
    | ok b =>
      cases hz : packF32be z with
      | error c => simp [Bind.bind, Except.bind, hy, hz]
      | ok c =>
        simp [Bind.bind, Except.bind, hy, hz, pure, Except.pure]
        exact eq_comm

lemma s8chunk_length (b : Bool) (v : ℤ) (out : List ℕ)
    (h : (if b then packS8 v else pure []) = Except.ok out) :
    out.length = if b then 1 else 0 := by
  cases b with
  | false =>
    rw [if_neg (by simp)] at h
    rw [if_neg (by simp)]
    simp [pure, Except.pure] at h
    simp [← h]
  | true =>
    rw [if_pos rfl] at h
    rw [if_pos rfl]
    exact packS8_length v out h

lemma s8chunk_ex (b : Bool) (v : ℤ) :
    (∃ out, (if b then packS8 v else pure []) = Except.ok out) ↔
      (b = true → -128 ≤ v ∧ v ≤ 127) := by
  cases b <;> simp [packS8_ex_iff, pure, Except.pure]

lemma s8triple_length (b : Bool) (x y z : ℤ) (out : List ℕ)
    (h : (if b then packTriple packS8 x y z else pure []) = Except.ok out) :
    out.length = if b then 3 else 0 := by
  cases b with
  | false =>
    rw [if_neg (by simp)] at h
    rw [if_neg (by simp)]
    simp [pure, Except.pure] at h
    simp [← h]
  | true =>
    rw [if_pos rfl] at h
    rw [if_pos rfl]
    rw [packTriple_eq_ok] at h
    obtain ⟨a, b, c, ha, hb, hc, rfl⟩ := h
    simp [packS8_length _ _ ha, packS8_length _ _ hb, packS8_length _ _ hc]

lemma s8triple_ex (b : Bool) (x y z : ℤ) :
    (∃ out, (if b then packTriple packS8 x y z else pure []) = Except.ok out) ↔
      (b = true → (-128 ≤ x ∧ x ≤ 127) ∧ (-128 ≤ y ∧ y ≤ 127) ∧ (-128 ≤ z ∧ z ≤ 127)) := by
  cases b with
  | false => simp [pure, Except.pure]
  | true =>
    rw [if_pos rfl]
    simp only [packTriple_eq_ok]
    constructor
    · rintro ⟨out, a, c, d, ha, hc, hd, rfl⟩ _
      exact ⟨(packS8_eq_ok x a).mp ha |>.1, (packS8_eq_ok y c).mp hc |>.1,
        (packS8_eq_ok z d).mp hd |>.1⟩
    · intro h
      obtain ⟨hx, hy, hz⟩ := h (by trivial)
      obtain ⟨a, ha⟩ := (packS8_ex_iff x).mpr hx
      obtain ⟨c, hc⟩ := (packS8_ex_iff y).mpr hy
      obtain ⟨d, hd⟩ := (packS8_ex_iff z).mpr hz
      exact ⟨a ++ c ++ d, a, c, d, ha, hc, hd, rfl⟩

lemma positionChunk_length (b1 b2 : Bool) (fx fy fz : ℚ) (ix iy iz : ℤ) (out : List ℕ)
    (h : (if b1 then packTripleF fx fy fz
          else if b2 then packTriple packS16be ix iy iz else pure []) = Except.ok out) :
    out.length = if b1 then 12 else if b2 then 6 else 0 := by
  cases b1 with
  | true =>
    rw [if_pos rfl] at h
    rw [if_pos rfl]
    rw [packTripleF_eq_ok] at h
    obtain ⟨a, b, c, ha, hb, hc, rfl⟩ := h
    simp [packF32be_length _ _ ha, packF32be_length _ _ hb, packF32be_length _ _ hc]
  | false =>
    rw [if_neg (by simp)] at h
    rw [if_neg (by simp)]
    cases b2 with
    | true =>
      rw [if_pos rfl] at h
      rw [if_pos rfl]
      rw [packTriple_eq_ok] at h
      obtain ⟨a, b, c, ha, hb, hc, rfl⟩ := h
      simp [packS16be_length _ _ ha, packS16be_length _ _ hb, packS16be_length _ _ hc]
    | false =>
      rw [if_neg (by simp)] at h
      rw [if_neg (by simp)]
      simp [pure, Except.pure] at h
      simp [← h]

lemma positionChunk_ex (b1 b2 : Bool) (fx fy fz : ℚ) (ix iy iz : ℤ) :
    (∃ out, (if b1 then packTripleF fx fy fz
             else if b2 then packTriple packS16be ix iy iz else pure []) = Except.ok out) ↔
      ((b1 = true → (f32bits fx).isSome ∧ (f32bits fy).isSome ∧ (f32bits fz).isSome) ∧
       (b1 = false → b2 = true →
         (-32768 ≤ ix ∧ ix ≤ 32767) ∧ (-32768 ≤ iy ∧ iy ≤ 32767) ∧
           (-32768 ≤ iz ∧ iz ≤ 32767))) := by
  cases b1 with
  | true =>
    rw [if_pos rfl]
    simp only [packTripleF_eq_ok]
    constructor
    · rintro ⟨out, a, b, c, ha, hb, hc, rfl⟩
      refine ⟨fun _ => ⟨?_, ?_, ?_⟩, by simp⟩
      · exact (packF32be_ex_iff fx).mp ⟨a, ha⟩
      · exact (packF32be_ex_iff fy).mp ⟨b, hb⟩
      · exact (packF32be_ex_iff fz).mp ⟨c, hc⟩
    · rintro ⟨h, _⟩
      obtain ⟨hx, hy, hz⟩ := h (by trivial)
      obtain ⟨a, ha⟩ := (packF32be_ex_iff fx).mpr hx
      obtain ⟨b, hb⟩ := (packF32be_ex_iff fy).mpr hy
      obtain ⟨c, hc⟩ := (packF32be_ex_iff fz).mpr hz
      exact ⟨a ++ b ++ c, a, b, c, ha, hb, hc, rfl⟩
  | false =>
    rw [if_neg (by simp)]
    cases b2 with
    | true =>
      rw [if_pos rfl]
      simp only [packTriple_eq_ok]
      constructor
      · rintro ⟨out, a, b, c, ha, hb, hc, rfl⟩
        refine ⟨by simp, fun _ _ => ?_⟩
        exact ⟨(packS16be_eq_ok ix a).mp ha |>.1, (packS16be_eq_ok iy b).mp hb |>.1,
          (packS16be_eq_ok iz c).mp hc |>.1⟩
      · rintro ⟨_, h⟩
        obtain ⟨hx, hy, hz⟩ := h (by trivial) (by trivial)
        obtain ⟨a, ha⟩ := (packS16be_ex_iff ix).mpr hx
        obtain ⟨b, hb⟩ := (packS16be_ex_iff iy).mpr hy
        obtain ⟨c, hc⟩ := (packS16be_ex_iff iz).mpr hz
        exact ⟨a ++ b ++ c, a, b, c, ha, hb, hc, rfl⟩
    | false => simp [pure, Except.pure]

lemma nameChunk_length (b : Bool) (s : List ℕ) (out : List ℕ)
    (h : (if b then packAsciiZ s else pure []) = Except.ok out) :
    out.length = if b then s.length + 1 else 0 := by
  cases b with
  | false =>
    rw [if_neg (by simp)] at h
    rw [if_neg (by simp)]
    simp [pure, Except.pure] at h
    simp [← h]
  | true =>
    rw [if_pos rfl] at h
    rw [if_pos rfl]
    exact packAsciiZ_length s out h

lemma nameChunk_ex (b : Bool) (s : List ℕ) :
    (∃ out, (if b then packAsciiZ s else pure []) = Except.ok out) ↔
      (b = true → ∀ c ∈ s, c < 128) := by
  cases b <;> simp [packAsciiZ_ex_iff, pure, Except.pure]

lemma hashChunk_length (b : Bool) (v : ℤ) (out : List ℕ)
    (h : (if b then packU32be v else pure []) = Except.ok out) :
    out.length = if b then 4 else 0 := by
  cases b with
  | false =>
    rw [if_neg (by simp)] at h
    rw [if_neg (by simp)]
    simp [pure, Except.pure] at h
    simp [← h]
  | true =>
    rw [if_pos rfl] at h
    rw [if_pos rfl]
    exact packU32be_length v out h

lemma hashChunk_ex (b : Bool) (v : ℤ) :
    (∃ out, (if b then packU32be v else pure []) = Except.ok out) ↔
      (b = true → 0 ≤ v ∧ v < 4294967296) := by
  cases b <;> simp [packU32be_ex_iff, pure, Except.pure]


/-- C5: whenever `pack` succeeds, the payload length is exactly the sum of
the byte-widths of the flagged fields in wire order (float position 12,
int position 6, velocity 3, scale 3, one per rotation axis, action name
length + 1, action hash 4, BCK frame 1, BCK rate 1, one per track weight),
with float position taking precedence over int position when both bits are
set; the returned bitmask is the state's bitmask, and packing identical
states yields identical bytes. -/
theorem c5_pack_length :
    (∀ st₁ st₂ : RawGhostData, st₁ = st₂ → pack st₁ = pack st₂) ∧
    (∀ (st : RawGhostData) (l : List ℕ) (fl : ℤ), pack st = Except.ok (l, fl) →
      l.length = expectedLen st ∧ fl = st.packet_flags) := by
  refine ⟨fun st₁ st₂ h => by rw [h], ?_⟩
  intro st l fl h
  unfold pack at h
  rw [except_map_eq_ok] at h
  obtain ⟨bytes, hseq, hpair⟩ := h
  injection hpair with hl hf
  subst hl
  refine ⟨?_, hf⟩
  unfold packChunks at hseq
  rw [seqChunks_ok_cons] at hseq
  obtain ⟨x1, r1, hc1, hseq, rfl⟩ := hseq
  rw [seqChunks_ok_cons] at hseq
  obtain ⟨x2, r2, hc2, hseq, rfl⟩ := hseq
  rw [seqChunks_ok_cons] at hseq
  obtain ⟨x3, r3, hc3, hseq, rfl⟩ := hseq
  rw [seqChunks_ok_cons] at hseq
  obtain ⟨x4, r4, hc4, hseq, rfl⟩ := hseq
  rw [seqChunks_ok_cons] at hseq
  obtain ⟨x5, r5, hc5, hseq, rfl⟩ := hseq
  rw [seqChunks_ok_cons] at hseq
  obtain ⟨x6, r6, hc6, hseq, rfl⟩ := hseq
  rw [seqChunks_ok_cons] at hseq
  obtain ⟨x7, r7, hc7, hseq, rfl⟩ := hseq
  rw [seqChunks_ok_cons] at hseq
  obtain ⟨x8, r8, hc8, hseq, rfl⟩ := hseq
  rw [seqChunks_ok_cons] at hseq
  obtain ⟨x9, r9, hc9, hseq, rfl⟩ := hseq
  rw [seqChunks_ok_cons] at hseq
  obtain ⟨x10, r10, hc10, hseq, rfl⟩ := hseq
  rw [seqChunks_ok_cons] at hseq
  obtain ⟨x11, r11, hc11, hseq, rfl⟩ := hseq
  rw [seqChunks_ok_cons] at hseq
  obtain ⟨x12, r12, hc12, hseq, rfl⟩ := hseq
  rw [seqChunks_ok_cons] at hseq
  obtain ⟨x13, r13, hc13, hseq, rfl⟩ := hseq
  rw [seqChunks_ok_cons] at hseq
  obtain ⟨x14, r14, hc14, hseq, rfl⟩ := hseq
  have hnil : r14 = [] := by
    have h0 : Except.ok ([] : List ℕ) = Except.ok r14 := hseq
    injection h0 with h
    exact h.symm
  subst hnil
  have l1 := positionChunk_length (hasFlag st.packet_flags PACKET_FLAG_POSITION_FLOAT)
    (hasFlag st.packet_flags PACKET_FLAG_POSITION_INT) st.position_f.x st.position_f.y
    st.position_f.z st.position.x st.position.y st.position.z x1 hc1
  have l2 := s8triple_length (hasFlag st.packet_flags PACKET_FLAG_VELOCITY)
    st.velocity.x st.velocity.y st.velocity.z x2 hc2
  have l3 := s8triple_length (hasFlag st.packet_flags PACKET_FLAG_SCALE)
    st.scale.x st.scale.y st.scale.z x3 hc3
  have l4 := s8chunk_length (hasFlag st.packet_flags PACKET_FLAG_ROTATION_X)
    st.rotation.x x4 hc4
  have l5 := s8chunk_length (hasFlag st.packet_flags PACKET_FLAG_ROTATION_Y)
    st.rotation.y x5 hc5
  have l6 := s8chunk_length (hasFlag st.packet_flags PACKET_FLAG_ROTATION_Z)
    st.rotation.z x6 hc6
  have l7 := nameChunk_length (hasFlag st.packet_flags PACKET_FLAG_ACTION_NAME)
    st.action_name x7 hc7
  have l8 := hashChunk_length (hasFlag st.packet_flags PACKET_FLAG_ACTION_HASH)
    st.action_hash x8 hc8
  have l9 := s8chunk_length (hasFlag st.packet_flags PACKET_FLAG_BCK_FRAME)
    st.bck_frame x9 hc9
  have l10 := s8chunk_length (hasFlag st.packet_flags PACKET_FLAG_BCK_RATE)
    st.bck_rate x10 hc10
  have l11 := s8chunk_length (hasFlag st.packet_flags PACKET_FLAG_TRACK_WEIGHT_0)
    st.track_weights.1 x11 hc11
  have l12 := s8chunk_length (hasFlag st.packet_flags PACKET_FLAG_TRACK_WEIGHT_1)
    st.track_weights.2.1 x12 hc12
  have l13 := s8chunk_length (hasFlag st.packet_flags PACKET_FLAG_TRACK_WEIGHT_2)
    st.track_weights.2.2.1 x13 hc13
  have l14 := s8chunk_length (hasFlag st.packet_flags PACKET_FLAG_TRACK_WEIGHT_3)
    st.track_weights.2.2.2 x14 hc14
  simp only [List.length_append, List.length_nil, l1, l2, l3, l4, l5, l6, l7, l8, l9, l10,
    l11, l12, l13, l14, expectedLen, Nat.add_zero, Nat.add_assoc]

/-- C5 witness: applies the packing-length law to the freshly initialized
state, whose bitmask -1 flags every field. -/
theorem c5_witness :
    (List.replicate 32 0).length = expectedLen (init 0) ∧
      (-1 : ℤ) = (init 0).packet_flags :=
  c5_pack_length.2 (init 0) (List.replicate 32 0) (-1) rfl

/-- C2 counterexample: a state reachable through the documented setters makes
`pack` raise.  Rotation 90 degrees (inside the documented [-180, 180] domain)
quantizes to 11520 at shift 7; after `compare_and_update` flags the rotation-X
field, `pack` hits `struct.error` because 11520 does not fit a signed byte. -/
theorem c2_counterexample :
    (set_rotation (init GHOST_TYPE_GHOST_ATTACK_GHOST) ⟨90, 0, 0⟩).rotation.x = 11520 ∧
    isOkB (pack (compare_and_update (init GHOST_TYPE_GHOST_ATTACK_GHOST)
      (set_rotation (init GHOST_TYPE_GHOST_ATTACK_GHOST) ⟨90, 0, 0⟩))) = false := by
  have hx : pytrunc (clamp (-180) 180 (90 : ℚ) * get_shift_ratio 7) = 11520 := by
    rw [show clamp (-180) 180 (90 : ℚ) = 90 from by norm_num [clamp], shift_ratio_7,
      show (90 : ℚ) * 128 = ((11520 : ℤ) : ℚ) from by norm_num, pytrunc_intCast]
  have hy : pytrunc (clamp (-180) 180 (0 : ℚ) * get_shift_ratio 7) = 0 := by
    rw [show clamp (-180) 180 (0 : ℚ) = 0 from by norm_num [clamp], shift_ratio_7,
      show (0 : ℚ) * 128 = ((0 : ℤ) : ℚ) from by norm_num, pytrunc_intCast]
  have hst : set_rotation (init GHOST_TYPE_GHOST_ATTACK_GHOST) ⟨90, 0, 0⟩ =
      { init GHOST_TYPE_GHOST_ATTACK_GHOST with rotation := ⟨11520, 0, 0⟩ } := by
    simp only [set_rotation]
    rw [hx, hy]
  rw [hst]
  exact ⟨rfl, rfl⟩

/-- C2 amended: `pack` does have an error path: it succeeds exactly when
every flagged field's stored value fits its wire encoding (signed bytes in
[-128, 127], int position components in [-32768, 32767], hash in
[0, 2^32), ASCII action name, float position inside the binary32 range);
states reachable through the documented setters can violate this, as the
counterexample shows. -/
theorem c2_pack_ok_iff (st : RawGhostData) :
    (∃ out, pack st = Except.ok out) ↔ packSafe st := by
  unfold pack
  have hmap : (∃ out, (seqChunks (packChunks st)).map
      (fun l => (l, st.packet_flags)) = Except.ok out) ↔
      (∃ l, seqChunks (packChunks st) = Except.ok l) := by
    constructor
    · rintro ⟨out, hout⟩
      rw [except_map_eq_ok] at hout
      obtain ⟨x, hx, _⟩ := hout
      exact ⟨x, hx⟩
    · rintro ⟨l, hl⟩
      refine ⟨(l, st.packet_flags), ?_⟩
      rw [except_map_eq_ok]
      exact ⟨l, hl, rfl⟩
  rw [hmap, seqChunks_ex_iff]
  unfold packChunks
  constructor
  · intro hall
    have e1 : ∃ x, chunkPosition st = Except.ok x := hall (chunkPosition st) (by simp)
    have e2 : ∃ x, chunkVelocity st = Except.ok x := hall (chunkVelocity st) (by simp)
    have e3 : ∃ x, chunkScale st = Except.ok x := hall (chunkScale st) (by simp)
    have e4 : ∃ x, chunkRotationX st = Except.ok x := hall (chunkRotationX st) (by simp)
    have e5 : ∃ x, chunkRotationY st = Except.ok x := hall (chunkRotationY st) (by simp)
    have e6 : ∃ x, chunkRotationZ st = Except.ok x := hall (chunkRotationZ st) (by simp)
    have e7 : ∃ x, chunkActionName st = Except.ok x := hall (chunkActionName st) (by simp)
    have e8 : ∃ x, chunkActionHash st = Except.ok x := hall (chunkActionHash st) (by simp)
    have e9 : ∃ x, chunkBckFrame st = Except.ok x := hall (chunkBckFrame st) (by simp)
    have e10 : ∃ x, chunkBckRate st = Except.ok x := hall (chunkBckRate st) (by simp)
    have e11 : ∃ x, chunkWeight0 st = Except.ok x := hall (chunkWeight0 st) (by simp)
    have e12 : ∃ x, chunkWeight1 st = Except.ok x := hall (chunkWeight1 st) (by simp)
    have e13 : ∃ x, chunkWeight2 st = Except.ok x := hall (chunkWeight2 st) (by simp)
    have e14 : ∃ x, chunkWeight3 st = Except.ok x := hall (chunkWeight3 st) (by simp)
    have p1 := (positionChunk_ex (hasFlag st.packet_flags PACKET_FLAG_POSITION_FLOAT)
      (hasFlag st.packet_flags PACKET_FLAG_POSITION_INT) st.position_f.x st.position_f.y
      st.position_f.z st.position.x st.position.y st.position.z).mp e1
    exact ⟨p1.1, p1.2,
      (s8triple_ex (hasFlag st.packet_flags PACKET_FLAG_VELOCITY)
        st.velocity.x st.velocity.y st.velocity.z).mp e2,
      (s8triple_ex (hasFlag st.packet_flags PACKET_FLAG_SCALE)
        st.scale.x st.scale.y st.scale.z).mp e3,
      (s8chunk_ex (hasFlag st.packet_flags PACKET_FLAG_ROTATION_X) st.rotation.x).mp e4,
      (s8chunk_ex (hasFlag st.packet_flags PACKET_FLAG_ROTATION_Y) st.rotation.y).mp e5,
      (s8chunk_ex (hasFlag st.packet_flags PACKET_FLAG_ROTATION_Z) st.rotation.z).mp e6,
      (nameChunk_ex (hasFlag st.packet_flags PACKET_FLAG_ACTION_NAME) st.action_name).mp e7,
      (hashChunk_ex (hasFlag st.packet_flags PACKET_FLAG_ACTION_HASH) st.action_hash).mp e8,
      (s8chunk_ex (hasFlag st.packet_flags PACKET_FLAG_BCK_FRAME) st.bck_frame).mp e9,
      (s8chunk_ex (hasFlag st.packet_flags PACKET_FLAG_BCK_RATE) st.bck_rate).mp e10,
      (s8chunk_ex (hasFlag st.packet_flags PACKET_FLAG_TRACK_WEIGHT_0)
        st.track_weights.1).mp e11,
      (s8chunk_ex (hasFlag st.packet_flags PACKET_FLAG_TRACK_WEIGHT_1)
        st.track_weights.2.1).mp e12,
      (s8chunk_ex (hasFlag st.packet_flags PACKET_FLAG_TRACK_WEIGHT_2)
        st.track_weights.2.2.1).mp e13,
      (s8chunk_ex (hasFlag st.packet_flags PACKET_FLAG_TRACK_WEIGHT_3)
        st.track_weights.2.2.2).mp e14⟩
  · intro hs c hc
    obtain ⟨hs1, hs2, hsV, hsS, hsRX, hsRY, hsRZ, hsN, hsH, hsF, hsR, hsW0, hsW1,
      hsW2, hsW3⟩ := hs
    simp only [List.mem_cons, List.not_mem_nil, or_false] at hc
    rcases hc with rfl | rfl | rfl | rfl | rfl | rfl | rfl | rfl | rfl | rfl | rfl | rfl | rfl | rfl
    · exact (positionChunk_ex (hasFlag st.packet_flags PACKET_FLAG_POSITION_FLOAT)
        (hasFlag st.packet_flags PACKET_FLAG_POSITION_INT) st.position_f.x st.position_f.y
        st.position_f.z st.position.x st.position.y st.position.z).mpr ⟨hs1, hs2⟩
    · exact (s8triple_ex (hasFlag st.packet_flags PACKET_FLAG_VELOCITY)
        st.velocity.x st.velocity.y st.velocity.z).mpr hsV
    · exact (s8triple_ex (hasFlag st.packet_flags PACKET_FLAG_SCALE)
        st.scale.x st.scale.y st.scale.z).mpr hsS
    · exact (s8chunk_ex (hasFlag st.packet_flags PACKET_FLAG_ROTATION_X) st.rotation.x).mpr hsRX
    · exact (s8chunk_ex (hasFlag st.packet_flags PACKET_FLAG_ROTATION_Y) st.rotation.y).mpr hsRY
    · exact (s8chunk_ex (hasFlag st.packet_flags PACKET_FLAG_ROTATION_Z) st.rotation.z).mpr hsRZ
    · exact (nameChunk_ex (hasFlag st.packet_flags PACKET_FLAG_ACTION_NAME)
        st.action_name).mpr hsN
    · exact (hashChunk_ex (hasFlag st.packet_flags PACKET_FLAG_ACTION_HASH)
        st.action_hash).mpr hsH
    · exact (s8chunk_ex (hasFlag st.packet_flags PACKET_FLAG_BCK_FRAME) st.bck_frame).mpr hsF
    · exact (s8chunk_ex (hasFlag st.packet_flags PACKET_FLAG_BCK_RATE) st.bck_rate).mpr hsR
    · exact (s8chunk_ex (hasFlag st.packet_flags PACKET_FLAG_TRACK_WEIGHT_0)
        st.track_weights.1).mpr hsW0
    · exact (s8chunk_ex (hasFlag st.packet_flags PACKET_FLAG_TRACK_WEIGHT_1)
        st.track_weights.2.1).mpr hsW1
    · exact (s8chunk_ex (hasFlag st.packet_flags PACKET_FLAG_TRACK_WEIGHT_2)
        st.track_weights.2.2.1).mpr hsW2
    · exact (s8chunk_ex (hasFlag st.packet_flags PACKET_FLAG_TRACK_WEIGHT_3)
        st.track_weights.2.2.2).mpr hsW3

/-- C2 witness: the freshly initialized state satisfies the range conditions,
so `pack` succeeds on it. -/
theorem c2_witness : ∃ out, pack (init 0) = Except.ok out :=
  (c2_pack_ok_iff (init 0)).mpr
    ⟨fun _ => by decide, fun _ _ => by decide, fun _ => by decide, fun _ => by decide,
     fun _ => by decide, fun _ => by decide, fun _ => by decide, fun _ => by decide,
     fun _ => by decide, fun _ => by decide, fun _ => by decide, fun _ => by decide,
     fun _ => by decide, fun _ => by decide, fun _ => by decide⟩


/-- C7: every remote-memory read guarded by `validate_ptr` fails exactly when
the address it dereferences is 0 and returns the value read otherwise; the
two-step reads (stage name, action name) additionally fail exactly when the
fetched pointer is 0. -/
theorem c7_null_reads (mem : RemoteMem) (ptr : ℕ) :
    (isOkB (dolphin_read_u32 mem ptr) = false ↔ ptr = 0) ∧
    (ptr ≠ 0 → dolphin_read_u32 mem ptr = Except.ok (mem.word ptr % 4294967296)) ∧
    (isOkB (dolphin_read_f32 mem ptr) = false ↔ ptr = 0) ∧
    (ptr ≠ 0 → dolphin_read_f32 mem ptr = Except.ok (mem.flt ptr)) ∧
    (isOkB (dolphin_read_cstring mem ptr) = false ↔ ptr = 0) ∧
    (ptr ≠ 0 → dolphin_read_cstring mem ptr = Except.ok (mem.cstr ptr)) ∧
    (isOkB (dolphin_read_stage_name mem ptr) = false ↔
      (ptr = 0 ∨ mem.word (ptr + OFFSET_STAGE_NAME_PTR) % 4294967296 = 0)) ∧
    (ptr ≠ 0 → mem.word (ptr + OFFSET_STAGE_NAME_PTR) % 4294967296 ≠ 0 →
      dolphin_read_stage_name mem ptr =
        Except.ok (mem.cstr (mem.word (ptr + OFFSET_STAGE_NAME_PTR) % 4294967296))) ∧
    (isOkB (dolphin_read_action_name mem ptr) = false ↔
      (ptr = 0 ∨ mem.word (ptr + OFFSET_GST_DATA_STRUCT_ACTION_NAME_PTR) % 4294967296 = 0)) ∧
    (ptr ≠ 0 → mem.word (ptr + OFFSET_GST_DATA_STRUCT_ACTION_NAME_PTR) % 4294967296 ≠ 0 →
      dolphin_read_action_name mem ptr =
        Except.ok (mem.cstr
          (mem.word (ptr + OFFSET_GST_DATA_STRUCT_ACTION_NAME_PTR) % 4294967296))) := by
  have h8 : ptr = 0 ∨ ptr + OFFSET_STAGE_NAME_PTR ≠ 0 := by
    simp [OFFSET_STAGE_NAME_PTR]
  have h44 : ptr = 0 ∨ ptr + OFFSET_GST_DATA_STRUCT_ACTION_NAME_PTR ≠ 0 := by
    simp [OFFSET_GST_DATA_STRUCT_ACTION_NAME_PTR, OFFSET_GST_DATA_STRUCT]
  refine ⟨?_, ?_, ?_, ?_, ?_, ?_, ?_, ?_, ?_, ?_⟩
  · by_cases h : ptr = 0 <;> simp [dolphin_read_u32, isOkB, h]
  · intro h
    simp [dolphin_read_u32, h]
  · by_cases h : ptr = 0 <;> simp [dolphin_read_f32, isOkB, h]
  · intro h
    simp [dolphin_read_f32, h]
  · by_cases h : ptr = 0 <;> simp [dolphin_read_cstring, isOkB, h]
  · intro h
    simp [dolphin_read_cstring, h]
  · by_cases h : ptr = 0
    · simp [dolphin_read_stage_name, isOkB, h]
    · have hp : ptr + OFFSET_STAGE_NAME_PTR ≠ 0 := by omega
      by_cases hw : mem.word (ptr + OFFSET_STAGE_NAME_PTR) % 4294967296 = 0 <;>
        simp [dolphin_read_stage_name, dolphin_read_u32, dolphin_read_cstring, isOkB,
          h, hp, hw, Bind.bind, Except.bind]
  · intro h hw
    have hp : ptr + OFFSET_STAGE_NAME_PTR ≠ 0 := by omega
    simp [dolphin_read_stage_name, dolphin_read_u32, dolphin_read_cstring,
      h, hp, hw, Bind.bind, Except.bind]
  · by_cases h : ptr = 0
    · simp [dolphin_read_action_name, isOkB, h]
    · have hp : ptr + OFFSET_GST_DATA_STRUCT_ACTION_NAME_PTR ≠ 0 := by omega
      by_cases hw : mem.word (ptr + OFFSET_GST_DATA_STRUCT_ACTION_NAME_PTR) % 4294967296 = 0 <;>
        simp [dolphin_read_action_name, dolphin_read_u32, dolphin_read_cstring, isOkB,
          h, hp, hw, Bind.bind, Except.bind]
  · intro h hw
    have hp : ptr + OFFSET_GST_DATA_STRUCT_ACTION_NAME_PTR ≠ 0 := by omega
    simp [dolphin_read_action_name, dolphin_read_u32, dolphin_read_cstring,
      h, hp, hw, Bind.bind, Except.bind]

/-- C7 witness: a non-null read of a concrete memory returns the stored
word masked to 32 bits. -/
theorem c7_witness :
    dolphin_read_u32 ⟨fun a => a + 1, fun _ => 0, fun a => [a % 256]⟩ 4 = Except.ok 5 :=
  (c7_null_reads ⟨fun a => a + 1, fun _ => 0, fun a => [a % 256]⟩ 4).2.1 (by decide)

/-- C8: the frame-continuity rule of the capture cycle.  Modelled from the
spec: the body of `record_gst_from_dolphin` is an empty stub in the source,
so the per-frame loop is formalized from the specification.  A counter equal
to `next_frame - 1 (mod 2^32)` skips the iteration (no packet, no failure),
a counter equal to `next_frame` emits exactly one packet and advances
`next_frame`, and any other counter aborts immediately with a
synchronization error, emitting no further packets and keeping what was
already written. -/
theorem c8_frame_sync (nf c : ℕ) (cs : List ℕ) (hnf : nf < 4294967296) :
    (c = (nf + 4294967295) % 4294967296 → captureLoop nf (c :: cs) = captureLoop nf cs) ∧
    (c = nf → captureLoop nf (c :: cs) =
      (c :: (captureLoop ((c + 1) % 4294967296) cs).1,
        (captureLoop ((c + 1) % 4294967296) cs).2)) ∧
    (c ≠ (nf + 4294967295) % 4294967296 → c ≠ nf → captureLoop nf (c :: cs) = ([], true)) := by
  refine ⟨fun h => ?_, fun h => ?_, fun h1 h2 => ?_⟩
  · have hs : captureStep nf c = StepAction.skip := by
      unfold captureStep
      rw [if_pos h]
    simp [captureLoop, hs]
  · subst h
    have hne : c ≠ (c + 4294967295) % 4294967296 := by omega
    have hs : captureStep c c = StepAction.emit := by
      unfold captureStep
      rw [if_neg hne, if_pos (by omega)]
    simp [captureLoop, hs]
  · have hs : captureStep nf c = StepAction.abortSync := by
      unfold captureStep
      rw [if_neg h1, if_neg (by rw [Nat.mod_eq_of_lt hnf]; exact h2)]
    simp [captureLoop, hs]

/-- C8 witness: with `next_frame` 7, an observed counter of 9 aborts the
session with no packet emitted. -/
theorem c8_witness : captureLoop 7 [9] = ([], true) :=
  (c8_frame_sync 7 9 [] (by decide)).2.2 (by decide) (by decide)

/-- C9 counterexample: for the malformed address "swag" the CLI reports the
error and never starts recording, but `handle_dolphin` merely returns, so
the process exits with code 0, not the non-zero exit code the claim
states. -/
theorem c9_counterexample :
    pyIntBase0 "swag" = none ∧
    cli_run "swag" =
      { error_reported := true, recording_started := false, exit_code := 0 } := by
  refine ⟨by decide, ?_⟩
  unfold cli_run
  rw [show pyIntBase0 "swag" = none from by decide]

/-- C9 amended: on a malformed address the CLI reports the error and
recording never starts, but the process exits with code 0 (the handler
catches the `ValueError`, prints to stderr and returns; `main` then falls
through to a normal interpreter exit). -/
theorem c9_cli_amended (s : String) (h : pyIntBase0 s = none) :
    cli_run s = { error_reported := true, recording_started := false, exit_code := 0 } := by
  unfold cli_run
  rw [h]

/-- C9 witness: instantiates the amended CLI behavior at a concrete
malformed address. -/
theorem c9_witness :
    cli_run "zz" = { error_reported := true, recording_started := false, exit_code := 0 } :=
  c9_cli_amended "zz" (by decide)

end GalaxyGst
